import Mathlib

/-!
Verification development for the st-deep-hydro repository.

The repository processes hydro-meteorological timeseries held in labeled
multi-dimensional arrays (xarray Datasets).  We shallowly embed the dataset
and processing layer (`stdeephydro/processing.py`), the model configuration
validation and factory (`stdeephydro/models.py`) and the basin file discovery
(`stdeephydro/ioutils.py`).

Modelling conventions:
* An xarray `Dataset` is modelled by `XDataset`: a list of named dimensions
  with sizes (its coordinates) together with named variables, each mapping a
  multi-index (one `Nat` per dimension, in order) to an optional rational.
  `none` models a NaN cell; `some q` models a numeric cell.  Exact rational
  arithmetic replaces floating point (claims about scaling are stated over
  exact arithmetic).  All variables of a dataset share the dataset's
  dimensions, which is how every dataset of this repository is laid out.
* Binary arithmetic between datasets matches variables by name (xarray's
  inner join) and broadcasts the right operand by evaluating it on the
  projection of the left operand's index onto the right operand's dimensions,
  which models xarray broadcasting for the shapes this code produces (the
  right operand's dimensions are a subset of the left's, as is the case for
  min/max parameter datasets).  NaN propagates through arithmetic; `min`/`max`
  reductions skip NaN (xarray's skipna default) and yield NaN when every cell
  is NaN.  Rational division by zero yields 0 in Lean; the claims about
  scaling exclude the degenerate max = min case explicitly.
* Python exceptions are modelled by `Except PyErr`.
-/

namespace StDeepHydro

/-- Python exception kinds raised by the embedded code (payload messages are
not modelled). -/
inductive PyErr where
  | keyError
  | typeError
  | valueError
  | indexError
  | fileNotFound
  | configError
  deriving DecidableEq

/-- First-match lookup in an association list: Python `dict` access, where the
repository builds dicts with unique keys so the first binding is the binding. -/
def lookupPairs {α : Type} : List (String × α) → String → Option α
  | [], _ => none
  | p :: rest, k => if p.1 = k then some p.2 else lookupPairs rest k

/-- NaN-propagating binary arithmetic on cells: in floating point any
operation with a NaN operand is NaN. -/
def olift2 (f : ℚ → ℚ → ℚ) : Option ℚ → Option ℚ → Option ℚ
  | some a, some b => some (f a b)
  | _, _ => none

/-- All multi-indices of a rectangular grid with the given sizes. -/
def allCombos : List Nat → List (List Nat)
  | [] => [[]]
  | n :: rest => (List.range n).flatMap (fun i => (allCombos rest).map (fun c => i :: c))

/-- Minimum of a list of cell values, skipping nothing (the NaN skip happens
before this is called); empty input yields NaN, matching xarray `min` over an
all-NaN slice. -/
def minListQ : List ℚ → Option ℚ
  | [] => none
  | x :: xs => some (xs.foldl min x)

/-- Maximum, dually to `minListQ`. -/
def maxListQ : List ℚ → Option ℚ
  | [] => none
  | x :: xs => some (xs.foldl max x)

/-- Position of a named dimension in a dimension list. -/
def findDimIdx : List (String × Nat) → String → Option Nat
  | [], _ => none
  | p :: rest, n => if p.1 = n then some 0 else (findDimIdx rest n).map (fun i => i + 1)

/-- Project a multi-index over `ldims` onto the dimension list `rdims`:
for each right dimension, take the component of the index at that
dimension's position on the left.  This is how a broadcast right operand is
addressed during xarray-style aligned arithmetic. -/
def projIdx (ldims rdims : List (String × Nat)) (ix : List Nat) : List Nat :=
  rdims.map (fun p =>
    match findDimIdx ldims p.1 with
    | some i => ix.getD i 0
    | none => 0)

/-- Model of an xarray `Dataset`: named dimensions with sizes (the
coordinates) and named variables giving a cell value for each multi-index. -/
structure XDataset where
  dims : List (String × Nat)
  vars : List (String × (List Nat → Option ℚ))

/-- The coordinate names of a dataset (`ds.coords` of the source, which for
this repository's data are exactly the dimensions). -/
def coordNames (x : XDataset) : List String := x.dims.map Prod.fst

/-- The data variable names of a dataset, in order. -/
def varNames (x : XDataset) : List String := x.vars.map Prod.fst

/-- Look a variable up by name. -/
def lookupVar (x : XDataset) (v : String) : Option (List Nat → Option ℚ) :=
  lookupPairs x.vars v

/-- Value of variable `v` at multi-index `ix` (NaN when the variable is
absent; `dsEquiv` separately compares variable name lists). -/
def cellVal (x : XDataset) (v : String) (ix : List Nat) : Option ℚ :=
  match lookupVar x v with
  | some f => f ix
  | none => none

/-- Every valid multi-index of the dataset's grid. -/
def allIdx (x : XDataset) : List (List Nat) := allCombos (x.dims.map Prod.snd)

/-- xarray-style binary arithmetic between datasets: variables are matched by
name (inner join); the result lives on the left operand's dimensions and the
right operand is broadcast via index projection.  NaN propagates. -/
def dsBinOp (f : ℚ → ℚ → ℚ) (a b : XDataset) : XDataset :=
  ⟨a.dims, a.vars.filterMap (fun nv =>
    (lookupVar b nv.1).map
      (fun g => (nv.1, fun ix => olift2 f (nv.2 ix) (g (projIdx a.dims b.dims ix)))))⟩

/-- `ds1 - ds2`. -/
def dsSub : XDataset → XDataset → XDataset := dsBinOp (· - ·)

/-- `ds1 / ds2` (exact rational division; 0 denominators give 0 in this
model where floating point would give inf/NaN — the scaling claims exclude
that case). -/
def dsDiv : XDataset → XDataset → XDataset := dsBinOp (· / ·)

/-- `ds1 * ds2`. -/
def dsMul : XDataset → XDataset → XDataset := dsBinOp (· * ·)

/-- `ds1 + ds2`. -/
def dsAdd : XDataset → XDataset → XDataset := dsBinOp (· + ·)

/-- Sizes of the dimensions removed by a reduction over `names`. -/
def removedSizes (dims : List (String × Nat)) (names : List String) : List Nat :=
  (dims.filter (fun p => decide (p.1 ∈ names))).map Prod.snd

/-- Dimensions kept by a reduction over `names`. -/
def keptDims (dims : List (String × Nat)) (names : List String) : List (String × Nat) :=
  dims.filter (fun p => !decide (p.1 ∈ names))

/-- Rebuild a full multi-index from a kept-dimension index and a
removed-dimension combination, interleaving in original dimension order. -/
def rebuildIdx : List (String × Nat) → List String → List Nat → List Nat → List Nat
  | [], _, _, _ => []
  | p :: rest, names, kept, removed =>
    if p.1 ∈ names then
      match removed with
      | r :: rs => r :: rebuildIdx rest names kept rs
      | [] => []
    else
      match kept with
      | k :: ks => k :: rebuildIdx rest names ks removed
      | [] => []

/-- All non-NaN cell values of the slice obtained by fixing the kept
dimensions at `ix` and letting the dimensions in `names` range over the grid
(xarray reduces with skipna=True). -/
def reduceCells (dims : List (String × Nat)) (names : List String)
    (f : List Nat → Option ℚ) (ix : List Nat) : List ℚ :=
  (allCombos (removedSizes dims names)).filterMap (fun c => f (rebuildIdx dims names ix c))

/-- `ds.min(names)`: per-variable minimum over the listed dimensions. -/
def dsReduceMin (x : XDataset) (names : List String) : XDataset :=
  ⟨keptDims x.dims names,
   x.vars.map (fun nv => (nv.1, fun ix => minListQ (reduceCells x.dims names nv.2 ix)))⟩

/-- `ds.max(names)`: per-variable maximum over the listed dimensions. -/
def dsReduceMax (x : XDataset) (names : List String) : XDataset :=
  ⟨keptDims x.dims names,
   x.vars.map (fun nv => (nv.1, fun ix => maxListQ (reduceCells x.dims names nv.2 ix)))⟩

/-- `ds.min()`: per-variable minimum over all dimensions (scalar result). -/
def dsMinAll (x : XDataset) : XDataset := dsReduceMin x (x.dims.map Prod.fst)

/-- `ds.max()`: per-variable maximum over all dimensions (scalar result). -/
def dsMaxAll (x : XDataset) : XDataset := dsReduceMax x (x.dims.map Prod.fst)

/-- Extensional equality of datasets: same dimensions, same variable names in
the same order, and the same cell value at every valid multi-index. -/
def dsEquiv (a b : XDataset) : Prop :=
  a.dims = b.dims ∧ varNames a = varNames b ∧
    ∀ v ∈ varNames a, ∀ ix ∈ allIdx a, cellVal a v ix = cellVal b v ix

/-- Modelled from the spec: `stdeephydro/dataset.py` (class `HydroDataset`)
is not among the provided sources.  Per the spec it "wraps a labeled array
(dimensions: basin, time, optionally y/x) plus feature/target column names
and a date range". -/
structure HydroDataset where
  timeseries : XDataset
  feature_cols : List String
  target_col : String
  start_date : String
  end_date : String

/-- State of an `AbstractProcessor` / `DefaultDatasetProcessor`
(`processing.py` lines 54-83, 212-213): the variable list used by
`fillna`/`setna` and the stored min/max scaling parameter pair, both
optional (`None` until set). -/
structure Processor where
  varList : Option (List String)
  scaling_params : Option (XDataset × XDataset)

namespace Processor

/-- `AbstractProcessor.scale` (`processing.py` lines 115-136): min/max
scaling of every variable.  When the processor has been fit, the stored
parameters are used; otherwise the minimum and maximum are computed from the
dataset being scaled. -/
def scale (st : Processor) (x : XDataset) : XDataset :=
  match st.scaling_params with
  | none => dsDiv (dsSub x (dsMinAll x)) (dsSub (dsMaxAll x) (dsMinAll x))
  | some p => dsDiv (dsSub x p.1) (dsSub p.2 p.1)

/-- The `(min_params, max_params)` pair `scale` uses: the stored pair when
the processor has been fit, else the per-variable min/max of the input
(`processing.py` lines 131-135). -/
def scaleParamsUsed (st : Processor) (x : XDataset) : XDataset × XDataset :=
  match st.scaling_params with
  | none => (dsMinAll x, dsMaxAll x)
  | some p => p

/-- `AbstractProcessor.rescale` (`processing.py` lines 138-154): inverse
transform using the stored parameters; unpacking `None` parameters is a
Python `TypeError`. -/
def rescale (st : Processor) (x : XDataset) : Except PyErr XDataset :=
  match st.scaling_params with
  | none => .error .typeError
  | some p => .ok (dsAdd (dsMul x (dsSub p.2 p.1)) p.1)

/-- `AbstractProcessor.fillna` (`processing.py` lines 156-173): fill NaN
cells of the processor's variables with `q`.  A `None` variable list makes
the `ds[None]` subset fail (`TypeError`), a variable absent from the dataset
raises `KeyError`. -/
def fillna (st : Processor) (x : XDataset) (q : ℚ) : Except PyErr XDataset :=
  match st.varList with
  | none => .error .typeError
  | some vs =>
    if ∀ v ∈ vs, (lookupVar x v).isSome = true then
      .ok ⟨x.dims, x.vars.map (fun nv =>
        if nv.1 ∈ vs then
          (nv.1, fun ix =>
            match nv.2 ix with
            | some a => some a
            | none => some q)
        else nv)⟩
    else .error .keyError

/-- `DefaultDatasetProcessor.__fit_scaling_params` (`processing.py` lines
263-270): derive the min/max parameters, validating the coordinate set.
Coordinates containing basin, time, y and x reduce over time, y and x;
coordinates containing basin and time reduce over time; anything else is a
`ValueError`. -/
def fit_scaling_params (x : XDataset) : Except PyErr (XDataset × XDataset) :=
  if ∀ n ∈ (["basin", "time", "y", "x"] : List String), n ∈ coordNames x then
    .ok (dsReduceMin x ["time", "y", "x"], dsReduceMax x ["time", "y", "x"])
  else if ∀ n ∈ (["basin", "time"] : List String), n ∈ coordNames x then
    .ok (dsReduceMin x ["time"], dsReduceMax x ["time"])
  else .error .valueError

/-- `DefaultDatasetProcessor.fit` (`processing.py` lines 215-232): derive
scaling parameters from the dataset and remember its feature columns. -/
def fit (st : Processor) (ds : HydroDataset) : Except PyErr Processor :=
  match fit_scaling_params ds.timeseries with
  | .error e => .error e
  | .ok p => .ok { st with scaling_params := some p, varList := some ds.feature_cols }

/-- The scale-then-fillna body of `DefaultDatasetProcessor.process`
(`processing.py` lines 258-261).  The input dataset is shallow-copied and its
`timeseries` replaced by the transformed array; the embedding is functional,
which matches the source because `scale` builds a fresh array via arithmetic
(the in-place `fillna` assignment then mutates only that fresh array, never
the caller's dataset). -/
def processCore (st : Processor) (ds : HydroDataset) : Except PyErr HydroDataset :=
  match fillna st (scale st ds.timeseries) (-1) with
  | .ok filled => .ok { ds with timeseries := filled }
  | .error e => .error e

/-- `DefaultDatasetProcessor.process` (`processing.py` lines 234-261):
when no scaling parameters are stored the processor first fits them to the
given dataset (only the scaling parameters — the variable list is not set on
this path); then the timeseries is scaled and NaN-filled with -1.  Returns
the (possibly updated) processor state and the result. -/
def process (st : Processor) (ds : HydroDataset) : Processor × Except PyErr HydroDataset :=
  match st.scaling_params with
  | none =>
    match fit_scaling_params ds.timeseries with
    | .error e => (st, .error e)
    | .ok p =>
      let st' : Processor := { st with scaling_params := some p }
      (st', processCore st' ds)
  | some _ => (st, processCore st ds)

end Processor

/-! ## Model configuration and validation (`stdeephydro/models.py`) -/

/-- Scalar JSON-like values appearing in model parameter dicts. -/
inductive JLeaf where
  | jint (n : Int)
  | jfloat (q : ℚ)
  | jbool (b : Bool)
  | jstr (s : String)
  deriving DecidableEq

/-- A parameter value: a scalar or a list of scalars (the per-layer lists
`units`, `dropout`, `filters`). -/
inductive JVal where
  | leaf (x : JLeaf)
  | jlist (xs : List JLeaf)
  deriving DecidableEq

/-- A model-family sub-dict such as the value of `"lstm"` or `"cnn"`. -/
abbrev SubDict := List (String × JVal)

/-- The `cfg.params` dict: model-family name to sub-dict. -/
abbrev TopParams := List (String × SubDict)

/-- Python `len(x)`: defined for lists and strings, a `TypeError`
otherwise. -/
def pyLen : JVal → Except PyErr Int
  | .jlist xs => .ok xs.length
  | .leaf (.jstr s) => .ok s.length
  | _ => .error .typeError

/-- Python `n == v` between an `int` length and an arbitrary value:
numeric types compare by value (`2 == 2.0` is `True`, `True == 1` is
`True`), any other comparison is `False`. -/
def pyEqIntJ (n : Int) : JVal → Bool
  | .leaf (.jint m) => decide (n = m)
  | .leaf (.jfloat q) => decide ((n : ℚ) = q)
  | .leaf (.jbool b) => decide (n = (if b then 1 else 0))
  | .leaf (.jstr _) => false
  | .jlist _ => false

/-- Python `isinstance(v, int)`: `True` for ints and bools (`bool` is a
subclass of `int`). -/
def isPyInt : JVal → Bool
  | .leaf (.jint _) => true
  | .leaf (.jbool _) => true
  | _ => false

/-- Python `v < 0` for the values that reach this comparison. -/
def pyLtZero : JVal → Except PyErr Bool
  | .leaf (.jint m) => .ok (decide (m < 0))
  | .leaf (.jbool _) => .ok false
  | .leaf (.jfloat q) => .ok (decide (q < 0))
  | _ => .error .typeError

/-- Python `int(v)` view of a value where an int is required (`range`,
list indexing); bools coerce, anything else is a `TypeError` in this
model. -/
def asPyInt : JVal → Option Int
  | .leaf (.jint n) => some n
  | .leaf (.jbool b) => some (if b then 1 else 0)
  | _ => none

/-- The `try/except KeyError: raise ConfigError` wrapper each validator
uses: a missing parameter key becomes a `ConfigError`. -/
def wrapKeyError {α : Type} : Except PyErr α → Except PyErr α
  | .error .keyError => .error .configError
  | r => r

/-- Python dict access raising `KeyError` when absent. -/
def dget {α : Type} (d : List (String × α)) (k : String) : Except PyErr α :=
  match lookupPairs d k with
  | some v => .ok v
  | none => .error .keyError

/-- Body of `LstmModel._get_and_validate_params` (`models.py` lines
308-322): fetch `lstm.hiddenLayers`, `lstm.units`, `lstm.dropout`, checking
that both list lengths equal `hiddenLayers` (no type or sign check). -/
def validateLstmCore (p : TopParams) : Except PyErr (JVal × JVal × JVal) :=
  match dget p "lstm" with
  | .error e => .error e
  | .ok sub =>
    match dget sub "hiddenLayers" with
    | .error e => .error e
    | .ok hl =>
      match dget sub "units" with
      | .error e => .error e
      | .ok units =>
        match pyLen units with
        | .error e => .error e
        | .ok lu =>
          if !(pyEqIntJ lu hl) then .error .configError
          else
            match dget sub "dropout" with
            | .error e => .error e
            | .ok dr =>
              match pyLen dr with
              | .error e => .error e
              | .ok ld =>
                if !(pyEqIntJ ld hl) then .error .configError
                else .ok (hl, units, dr)

/-- `LstmModel._get_and_validate_params` with its `KeyError` wrapper. -/
def validateLstmParams (p : TopParams) : Except PyErr (JVal × JVal × JVal) :=
  wrapKeyError (validateLstmCore p)

/-- Body of the CNN-side private validators
(`CnnLstmModel.__get_and_validate_cnn_params`,
`MultiInputCnnLstmModel.__get_and_validate_cnn_params`,
`ConvLstmModel.__get_and_validate_cnn_params`,
`Conv3DModel.__get_and_validate_cnn_params` — four textually identical
methods): fetch `hiddenLayers` and `filters`, require `hiddenLayers` to be an
`int`, non-negative, and `len(filters)` to equal it. -/
def cnnPartCore (sub : SubDict) : Except PyErr (JVal × JVal) :=
  match dget sub "hiddenLayers" with
  | .error e => .error e
  | .ok hl =>
    match dget sub "filters" with
    | .error e => .error e
    | .ok fs =>
      if !(isPyInt hl) then .error .configError
      else
        match pyLtZero hl with
        | .error e => .error e
        | .ok true => .error .configError
        | .ok false =>
          match pyLen fs with
          | .error e => .error e
          | .ok lf =>
            if !(pyEqIntJ lf hl) then .error .configError
            else .ok (hl, fs)

/-- CNN-side private validator with its `KeyError` wrapper. -/
def cnnPartValidate (sub : SubDict) : Except PyErr (JVal × JVal) :=
  wrapKeyError (cnnPartCore sub)

/-- Body of the LSTM-side private validators of the CNN models
(`CnnLstmModel.__get_and_validate_lstm_params` and
`MultiInputCnnLstmModel.__get_and_validate_lstm_params`, textually
identical): like the plain LSTM validator but with the `isinstance`/sign
checks on `hiddenLayers` inserted before the length checks. -/
def lstmPartCore (sub : SubDict) : Except PyErr (JVal × JVal × JVal) :=
  match dget sub "hiddenLayers" with
  | .error e => .error e
  | .ok hl =>
    match dget sub "units" with
    | .error e => .error e
    | .ok units =>
      if !(isPyInt hl) then .error .configError
      else
        match pyLtZero hl with
        | .error e => .error e
        | .ok true => .error .configError
        | .ok false =>
          match pyLen units with
          | .error e => .error e
          | .ok lu =>
            if !(pyEqIntJ lu hl) then .error .configError
            else
              match dget sub "dropout" with
              | .error e => .error e
              | .ok dr =>
                match pyLen dr with
                | .error e => .error e
                | .ok ld =>
                  if !(pyEqIntJ ld hl) then .error .configError
                  else .ok (hl, units, dr)

/-- LSTM-side private validator with its `KeyError` wrapper. -/
def lstmPartValidate (sub : SubDict) : Except PyErr (JVal × JVal × JVal) :=
  wrapKeyError (lstmPartCore sub)

/-- `CnnLstmModel._get_and_validate_params` (`models.py` lines 445-453):
validate the `cnn` part then the `lstm` part. -/
def validateCnnLstmParams (p : TopParams) :
    Except PyErr (JVal × JVal × JVal × JVal × JVal) :=
  wrapKeyError
    (match dget p "cnn" with
     | .error e => .error e
     | .ok c =>
       match cnnPartValidate c with
       | .error e => .error e
       | .ok (hc, fs) =>
         match dget p "lstm" with
         | .error e => .error e
         | .ok l =>
           match lstmPartValidate l with
           | .error e => .error e
           | .ok (hl, us, dr) => .ok (hc, fs, hl, us, dr))

/-- `MultiInputCnnLstmModel._get_and_validate_params` (`models.py` lines
601-609), textually identical to the CnnLstm one. -/
def validateMultiCnnLstmParams (p : TopParams) :
    Except PyErr (JVal × JVal × JVal × JVal × JVal) :=
  wrapKeyError
    (match dget p "cnn" with
     | .error e => .error e
     | .ok c =>
       match cnnPartValidate c with
       | .error e => .error e
       | .ok (hc, fs) =>
         match dget p "lstm" with
         | .error e => .error e
         | .ok l =>
           match lstmPartValidate l with
           | .error e => .error e
           | .ok (hl, us, dr) => .ok (hc, fs, hl, us, dr))

/-- `ConvLstmModel._get_and_validate_params` (`models.py` lines 696-702):
validate only the `cnn` part. -/
def validateConvLstmParams (p : TopParams) : Except PyErr (JVal × JVal) :=
  wrapKeyError
    (match dget p "cnn" with
     | .error e => .error e
     | .ok c => cnnPartValidate c)

/-- `Conv3DModel._get_and_validate_params` (`models.py` lines 786-792),
textually identical to the ConvLstm one. -/
def validateConv3dParams (p : TopParams) : Except PyErr (JVal × JVal) :=
  wrapKeyError
    (match dget p "cnn" with
     | .error e => .error e
     | .ok c => cnnPartValidate c)

/-- Modelled from the spec: `stdeephydro/config.py` (class `ModelConfig`)
is not among the provided sources.  Per the spec it is a "declarative
configuration (architecture type, hyperparameters, loss/optimizer/metrics,
batch size, window length, prediction offset); immutable after
construction".  Only `model_type` and `params` are read by the embedded
`models.py` code. -/
structure ModelConfig where
  model_type : String
  params : TopParams
  loss : String
  optimizer : String
  metrics : List String
  epochs : Nat
  batch_size : Nat
  timesteps : List Nat
  offset : Int
  multi_output : Bool

/-- The concrete model classes the factory can instantiate. -/
inductive ModelKind where
  | lstm
  | cnnLstm
  | multiCnnLstm
  | convLstm
  | conv3d
  deriving DecidableEq

/-- A constructed (not yet built) model instance: the constructors of all
model classes only store the config (`models.py` lines 28-32); no parameter
validation happens until `build`. -/
structure Model where
  kind : ModelKind
  cfg : ModelConfig

/-- `models.factory` (`models.py` lines 795-820): dispatch on
`cfg.model_type`, raising `ValueError` for unknown types. -/
def factory (cfg : ModelConfig) : Except PyErr Model :=
  if cfg.model_type = "lstm" then .ok ⟨.lstm, cfg⟩
  else if cfg.model_type = "cnn-lstm" then .ok ⟨.cnnLstm, cfg⟩
  else if cfg.model_type = "multi-cnn-lstm" then .ok ⟨.multiCnnLstm, cfg⟩
  else if cfg.model_type = "convlstm" then .ok ⟨.convLstm, cfg⟩
  else if cfg.model_type = "conv3d" then .ok ⟨.conv3d, cfg⟩
  else .error .valueError

/-! ### Model architecture builders

`_build_model` of each class is embedded as a function returning the list of
Keras layers it creates, in creation order; Tensorflow's numeric behavior is
out of scope, but the Python list indexing (`units[i]`, `units[h-1]`, …) is
modelled exactly, including negative-index semantics, because it determines
which configurations crash. -/

/-- Abstract descriptor of a Keras layer created by a `_build_model`. -/
inductive Layer where
  | inputL (shape : List Nat)
  | lstmL (units : JLeaf) (returnSequences : Bool) (dropout : Option JLeaf)
  | tdConv2d (filters : JLeaf)
  | tdMaxPool2d
  | tdGlobalMaxPool2d
  | convLstm2d (filters : JLeaf) (returnSequences : Bool)
  | maxPool3d
  | globalMaxPool2d
  | conv3dL (filters : JLeaf)
  | globalMaxPool3d
  | concatL
  | denseL (units : Int)
  deriving DecidableEq

/-- The model input shape: a single shape tuple or a list of them
(multi-input models). -/
inductive ShapeArg where
  | single (s : List Nat)
  | multi (ss : List (List Nat))

/-- Python list indexing `xs[i]` with negative-index wrap-around and
`IndexError` out of range. -/
def pyIndex {α : Type} (xs : List α) (i : Int) : Except PyErr α :=
  let j : Int := if i < 0 then i + xs.length else i
  if j < 0 then .error .indexError
  else
    match xs.get? j.toNat with
    | some a => .ok a
    | none => .error .indexError

/-- Sequence a list of fallible computations, stopping at the first error
(Python loop semantics). -/
def exceptMapM {α β : Type} (f : α → Except PyErr β) : List α → Except PyErr (List β)
  | [] => .ok []
  | a :: as =>
    match f a with
    | .error e => .error e
    | .ok b =>
      match exceptMapM f as with
      | .error e => .error e
      | .ok bs => .ok (b :: bs)

/-- The `for i in range(0, hidden_layers - 1)` loop of stacked LSTM layers
with `return_sequences=True` and per-layer dropout. -/
def stackedLstmLayers (us dr : List JLeaf) (n : Nat) : Except PyErr (List Layer) :=
  exceptMapM (fun (i : Nat) =>
    match pyIndex us (i : Int) with
    | .error e => .error e
    | .ok u =>
      match pyIndex dr (i : Int) with
      | .error e => .error e
      | .ok d => .ok (Layer.lstmL u true (some d))) (List.range n)

/-- The `for i in range(0, hidden_layers - 1)` loop of convolution blocks,
each block built from `filters[i]`. -/
def stackedFilterBlocks (blockOf : JLeaf → List Layer) (fs : List JLeaf) (n : Nat) :
    Except PyErr (List Layer) :=
  match exceptMapM (fun (i : Nat) =>
      match pyIndex fs (i : Int) with
      | .error e => .error e
      | .ok fl => .ok (blockOf fl)) (List.range n) with
  | .error e => .error e
  | .ok blocks => .ok blocks.flatten

/-- The final fully connected layer: `Dense(1)` unless an output size is
given. -/
def outLayer : Option Int → Layer
  | none => Layer.denseL 1
  | some k => Layer.denseL k

/-- `LstmModel._build_model` (`models.py` lines 276-306): stacked LSTM
layers, a final LSTM accessed at `units[hidden_layers - 1]` and
`dropout[hidden_layers - 1]`, then a dense layer. -/
def lstmBuildModel (sh : ShapeArg) (t : JVal × JVal × JVal) (os : Option Int) :
    Except PyErr (List Layer) :=
  match sh, t with
  | .single s, (hlv, .jlist us, .jlist dr) =>
    match asPyInt hlv with
    | none => .error .typeError
    | some hl =>
      match stackedLstmLayers us dr (hl - 1).toNat with
      | .error e => .error e
      | .ok stacked =>
        match pyIndex us (hl - 1) with
        | .error e => .error e
        | .ok u =>
          match pyIndex dr (hl - 1) with
          | .error e => .error e
          | .ok d =>
            .ok ([Layer.inputL s] ++ stacked ++ [Layer.lstmL u false (some d), outLayer os])
  | _, _ => .error .typeError

/-- `CnnLstmModel._build_model` (`models.py` lines 357-407): time-distributed
Conv2D/MaxPooling2D blocks, a final Conv2D with GlobalMaxPooling2D, stacked
LSTM layers, a final LSTM without dropout, then a dense layer. -/
def cnnLstmBuildModel (sh : ShapeArg) (t : JVal × JVal × JVal × JVal × JVal)
    (os : Option Int) : Except PyErr (List Layer) :=
  match sh, t with
  | .single s, (hcv, .jlist fs, hlv, .jlist us, .jlist dr) =>
    match asPyInt hcv, asPyInt hlv with
    | some hc, some hl =>
      match stackedFilterBlocks (fun fl => [Layer.tdConv2d fl, Layer.tdMaxPool2d]) fs (hc - 1).toNat with
      | .error e => .error e
      | .ok cnnPart =>
        match pyIndex fs (hc - 1) with
        | .error e => .error e
        | .ok flLast =>
          match stackedLstmLayers us dr (hl - 1).toNat with
          | .error e => .error e
          | .ok lstmPart =>
            match pyIndex us (hl - 1) with
            | .error e => .error e
            | .ok u =>
              .ok ([Layer.inputL s] ++ cnnPart ++
                   [Layer.tdConv2d flLast, Layer.tdGlobalMaxPool2d] ++ lstmPart ++
                   [Layer.lstmL u false none, outLayer os])
    | _, _ => .error .typeError
  | _, _ => .error .typeError

/-- `MultiInputCnnLstmModel._build_model` (`models.py` lines 493-563): an
LSTM branch on `input_shape[0]`, a CNN-LSTM branch on `input_shape[1]`
(reusing the same `units`/`dropout` lists), concatenation and two dense
layers; `output_size` is ignored (`Dense(1)`). -/
def multiCnnLstmBuildModel (sh : ShapeArg) (t : JVal × JVal × JVal × JVal × JVal)
    (_os : Option Int) : Except PyErr (List Layer) :=
  match sh, t with
  | .multi ss, (hcv, .jlist fs, hlv, .jlist us, .jlist dr) =>
    match asPyInt hcv, asPyInt hlv with
    | some hc, some hl =>
      match pyIndex ss 0 with
      | .error e => .error e
      | .ok s0 =>
        match stackedLstmLayers us dr (hl - 1).toNat with
        | .error e => .error e
        | .ok lstmA =>
          match pyIndex us (hl - 1) with
          | .error e => .error e
          | .ok uA =>
            match pyIndex dr (hl - 1) with
            | .error e => .error e
            | .ok dA =>
              match pyIndex ss 1 with
              | .error e => .error e
              | .ok s1 =>
                match stackedFilterBlocks (fun fl => [Layer.tdConv2d fl, Layer.tdMaxPool2d]) fs (hc - 1).toNat with
                | .error e => .error e
                | .ok cnnPart =>
                  match pyIndex fs (hc - 1) with
                  | .error e => .error e
                  | .ok flLast =>
                    match stackedLstmLayers us dr (hl - 1).toNat with
                    | .error e => .error e
                    | .ok lstmB =>
                      match pyIndex us (hl - 1) with
                      | .error e => .error e
                      | .ok uB =>
                        match pyIndex dr (hl - 1) with
                        | .error e => .error e
                        | .ok dB =>
                          .ok ([Layer.inputL s0] ++ lstmA ++
                               [Layer.lstmL uA false (some dA), Layer.inputL s1] ++
                               cnnPart ++ [Layer.tdConv2d flLast, Layer.tdGlobalMaxPool2d] ++
                               lstmB ++
                               [Layer.lstmL uB false (some dB), Layer.concatL,
                                Layer.denseL 64, Layer.denseL 1])
    | _, _ => .error .typeError
  | _, _ => .error .typeError

/-- `ConvLstmModel._build_model` (`models.py` lines 638-678): ConvLSTM2D /
MaxPooling3D blocks, a final ConvLSTM2D with GlobalMaxPooling2D, then
dense. -/
def convLstmBuildModel (sh : ShapeArg) (t : JVal × JVal) (os : Option Int) :
    Except PyErr (List Layer) :=
  match sh, t with
  | .single s, (hcv, .jlist fs) =>
    match asPyInt hcv with
    | none => .error .typeError
    | some hc =>
      match stackedFilterBlocks (fun fl => [Layer.convLstm2d fl true, Layer.maxPool3d]) fs (hc - 1).toNat with
      | .error e => .error e
      | .ok blocks =>
        match pyIndex fs (hc - 1) with
        | .error e => .error e
        | .ok flLast =>
          .ok ([Layer.inputL s] ++ blocks ++
               [Layer.convLstm2d flLast false, Layer.globalMaxPool2d, outLayer os])
  | _, _ => .error .typeError

/-- `Conv3DModel._build_model` (`models.py` lines 730-768): Conv3D /
MaxPooling3D blocks, a final Conv3D with GlobalMaxPooling3D, then dense. -/
def conv3dBuildModel (sh : ShapeArg) (t : JVal × JVal) (os : Option Int) :
    Except PyErr (List Layer) :=
  match sh, t with
  | .single s, (hcv, .jlist fs) =>
    match asPyInt hcv with
    | none => .error .typeError
    | some hc =>
      match stackedFilterBlocks (fun fl => [Layer.conv3dL fl, Layer.maxPool3d]) fs (hc - 1).toNat with
      | .error e => .error e
      | .ok blocks =>
        match pyIndex fs (hc - 1) with
        | .error e => .error e
        | .ok flLast =>
          .ok ([Layer.inputL s] ++ blocks ++
               [Layer.conv3dL flLast, Layer.globalMaxPool3d, outLayer os])
  | _, _ => .error .typeError

/-- `AbstractModel.build` (`models.py` lines 46-64): validate the parameters
for the model's type, then build the architecture.  This is the first and
only place configuration parameters are validated. -/
def buildModel (m : Model) (sh : ShapeArg) (os : Option Int) : Except PyErr (List Layer) :=
  match m.kind with
  | .lstm =>
    match validateLstmParams m.cfg.params with
    | .error e => .error e
    | .ok t => lstmBuildModel sh t os
  | .cnnLstm =>
    match validateCnnLstmParams m.cfg.params with
    | .error e => .error e
    | .ok t => cnnLstmBuildModel sh t os
  | .multiCnnLstm =>
    match validateMultiCnnLstmParams m.cfg.params with
    | .error e => .error e
    | .ok t => multiCnnLstmBuildModel sh t os
  | .convLstm =>
    match validateConvLstmParams m.cfg.params with
    | .error e => .error e
    | .ok t => convLstmBuildModel sh t os
  | .conv3d =>
    match validateConv3dParams m.cfg.params with
    | .error e => .error e
    | .ok t => conv3dBuildModel sh t os

/-! ### Spec-side characterisation of validation failures

These predicates restate, from the spec's wording, when a configuration is
invalid for a model type: a required parameter key is missing, or a
per-layer list has a length different from the configured `hiddenLayers`
value.  They are compared against the implementation's validators. -/

/-- Whether `v` is an `int` literal (the well-typedness the claims
presuppose for `hiddenLayers`). -/
def isIntVal : JVal → Bool
  | .leaf (.jint _) => true
  | _ => false

/-- Whether `v` is a list (the well-typedness the claims presuppose for the
per-layer lists). -/
def isListVal : JVal → Bool
  | .jlist _ => true
  | _ => false

/-- Well-typedness of one parameter binding: `hiddenLayers` entries are
ints, per-layer entries (`units`, `dropout`, `filters`) are lists. -/
def wtVal (k : String) (v : JVal) : Bool :=
  (!(k = "hiddenLayers") || isIntVal v) &&
    (!(k = "units" || k = "dropout" || k = "filters") || isListVal v)

/-- Well-typedness of a whole `params` dict. -/
def wellTypedParams (p : TopParams) : Bool :=
  p.all (fun s => s.2.all (fun kv => wtVal kv.1 kv.2))

/-- A per-layer list value whose length differs from the configured
`hiddenLayers` value (under Python numeric equality). -/
def jlistLenNe (v hl : JVal) : Bool :=
  match v with
  | .jlist xs => !(pyEqIntJ (xs.length : Int) hl)
  | _ => false

/-- A required key of the `lstm` sub-dict (or that sub-dict itself) is
missing, for the plain LSTM model. -/
def lstmKeysMissing (p : TopParams) : Bool :=
  match lookupPairs p "lstm" with
  | none => true
  | some sub =>
    (lookupPairs sub "hiddenLayers").isNone || (lookupPairs sub "units").isNone ||
      (lookupPairs sub "dropout").isNone

/-- `units` or `dropout` has a length different from `hiddenLayers`, for the
plain LSTM model. -/
def lstmLenMismatch (p : TopParams) : Bool :=
  match lookupPairs p "lstm" with
  | none => false
  | some sub =>
    match lookupPairs sub "hiddenLayers" with
    | none => false
    | some hl =>
      (match lookupPairs sub "units" with
       | some us => jlistLenNe us hl
       | none => false) ||
      (match lookupPairs sub "dropout" with
       | some dr => jlistLenNe dr hl
       | none => false)

/-- A required key of a `cnn` sub-dict is missing. -/
def cnnKeysMissingSub (sub : SubDict) : Bool :=
  (lookupPairs sub "hiddenLayers").isNone || (lookupPairs sub "filters").isNone

/-- `filters` has a length different from `hiddenLayers` in a `cnn`
sub-dict. -/
def cnnMismatchSub (sub : SubDict) : Bool :=
  match lookupPairs sub "hiddenLayers" with
  | none => false
  | some hl =>
    match lookupPairs sub "filters" with
    | some fs => jlistLenNe fs hl
    | none => false

/-- A required key of an `lstm` sub-dict is missing (CNN-family models). -/
def lstmKeysMissingSub (sub : SubDict) : Bool :=
  (lookupPairs sub "hiddenLayers").isNone || (lookupPairs sub "units").isNone ||
    (lookupPairs sub "dropout").isNone

/-- `units` or `dropout` has a length different from `hiddenLayers` in an
`lstm` sub-dict (CNN-family models). -/
def lstmMismatchSub (sub : SubDict) : Bool :=
  match lookupPairs sub "hiddenLayers" with
  | none => false
  | some hl =>
    (match lookupPairs sub "units" with
     | some us => jlistLenNe us hl
     | none => false) ||
    (match lookupPairs sub "dropout" with
     | some dr => jlistLenNe dr hl
     | none => false)

/-- Required-key-missing for the CNN-LSTM family (both `cnn` and `lstm`
parts are required). -/
def cnnLstmKeysMissing (p : TopParams) : Bool :=
  (match lookupPairs p "cnn" with
   | none => true
   | some c => cnnKeysMissingSub c) ||
  (match lookupPairs p "lstm" with
   | none => true
   | some l => lstmKeysMissingSub l)

/-- Length-mismatch for the CNN-LSTM family. -/
def cnnLstmMismatch (p : TopParams) : Bool :=
  (match lookupPairs p "cnn" with
   | none => false
   | some c => cnnMismatchSub c) ||
  (match lookupPairs p "lstm" with
   | none => false
   | some l => lstmMismatchSub l)

/-- Required-key-missing for the ConvLSTM/Conv3D family (only a `cnn` part
is required). -/
def convKeysMissing (p : TopParams) : Bool :=
  match lookupPairs p "cnn" with
  | none => true
  | some c => cnnKeysMissingSub c

/-- Length-mismatch for the ConvLSTM/Conv3D family. -/
def convMismatch (p : TopParams) : Bool :=
  match lookupPairs p "cnn" with
  | none => false
  | some c => cnnMismatchSub c

/-- The spec's invalidity condition for each model type: a required
parameter key is missing or a per-layer list length differs from
`hiddenLayers`. -/
def requiredMissingOrLenMismatch (k : ModelKind) (p : TopParams) : Bool :=
  match k with
  | .lstm => lstmKeysMissing p || lstmLenMismatch p
  | .cnnLstm => cnnLstmKeysMissing p || cnnLstmMismatch p
  | .multiCnnLstm => cnnLstmKeysMissing p || cnnLstmMismatch p
  | .convLstm => convKeysMissing p || convMismatch p
  | .conv3d => convKeysMissing p || convMismatch p

/-! ## Observation/prediction merging (`processing.py` lines 10-51)

For `merge_observations_and_predictions` the time coordinate labels matter
(slicing by date, join on the time index), so the datasets it handles are
modelled as time-indexed tables: a list of time labels and variables aligned
with it. -/

/-- A time-indexed dataset: time coordinate labels plus named variables whose
value lists are aligned with the labels. -/
structure TSDataset where
  times : List Int
  vars : List (String × List (Option ℚ))

/-- `list(ds.keys())`: the data variable names. -/
def tsKeys (ds : TSDataset) : List String := ds.vars.map Prod.fst

/-- Variable lookup by name. -/
def tsLookup (ds : TSDataset) (v : String) : Option (List (Option ℚ)) :=
  lookupPairs ds.vars v

/-- Value of a variable column at time label `t` (NaN when the label is
absent from the index). -/
def rowAt (times : List Int) (xs : List (Option ℚ)) (t : Int) : Option ℚ :=
  match times.findIdx? (fun u => u == t) with
  | some i => (xs.get? i).join
  | none => none

/-- `ds[variables]`: subset to the listed variables, `KeyError` when one is
absent. -/
def selVarsTS (ds : TSDataset) (vs : List String) : Except PyErr TSDataset :=
  if ∀ v ∈ vs, (tsLookup ds v).isSome = true then
    .ok ⟨ds.times, vs.map (fun v => (v, (tsLookup ds v).getD []))⟩
  else .error .keyError

/-- `ds.sel(time=slice(a, b))`: label-based slicing, inclusive at both ends
(defined for the monotonic indexes xarray requires). -/
def selTimeSliceTS (ds : TSDataset) (a b : Int) : TSDataset :=
  ⟨ds.times.filter (fun t => decide (a ≤ t) && decide (t ≤ b)),
   ds.vars.map (fun nv =>
     (nv.1, ((nv.2.zip ds.times).filter (fun pr => decide (a ≤ pr.2) && decide (pr.2 ≤ b))).map Prod.fst))⟩

/-- `ds.rename(...)` appending a fixed suffix to every variable name. -/
def renameTS (ds : TSDataset) (suffix : String) : TSDataset :=
  ⟨ds.times, ds.vars.map (fun nv => (nv.1 ++ suffix, nv.2))⟩

/-- Re-index a dataset onto a target time index, filling absent labels with
NaN (what `xr.merge` does to the non-priority operand). -/
def reindexTS (times : List Int) (ds : TSDataset) : TSDataset :=
  ⟨times, ds.vars.map (fun nv => (nv.1, times.map (fun t => rowAt ds.times nv.2 t)))⟩

/-- `xr.merge([a, b], join="left"/"right")`: the merged index is the first
operand's (left) or the last operand's (right); both operands are re-indexed
onto it. -/
def mergeTS (a b : TSDataset) (useFirstTimes : Bool) : TSDataset :=
  let ts := if useFirstTimes then a.times else b.times
  ⟨ts, (reindexTS ts a).vars ++ (reindexTS ts b).vars⟩

/-- `ds.time[0]` — `IndexError` on an empty index. -/
def firstTime : List Int → Except PyErr Int
  | [] => .error .indexError
  | t :: _ => .ok t

/-- `ds.time[-1]` — `IndexError` on an empty index. -/
def lastTime (ts : List Int) : Except PyErr Int :=
  match ts.getLast? with
  | some t => .ok t
  | none => .error .indexError

/-- `merge_observations_and_predictions` (`processing.py` lines 10-51):
subset the observations to the prediction's variables, slice to the chosen
timeframe, rename both sides with `_obs`/`_pred` suffixes and merge with the
prediction's index (join left) or the observation's (join right). -/
def mergeObservationsAndPredictions (ds_observation ds_prediction : TSDataset)
    (use_pred_timeframe : Bool) : Except PyErr TSDataset :=
  let varKeys := tsKeys ds_prediction
  match (if use_pred_timeframe then
           match firstTime ds_prediction.times with
           | .error e => .error e
           | .ok s =>
             match lastTime ds_prediction.times with
             | .error e => .error e
             | .ok e2 => .ok (s, e2)
         else
           match firstTime ds_observation.times with
           | .error e => .error e
           | .ok s =>
             match lastTime ds_observation.times with
             | .error e => .error e
             | .ok e2 => .ok (s, e2) : Except PyErr (Int × Int)) with
  | .error e => .error e
  | .ok se =>
    match selVarsTS ds_observation varKeys with
    | .error e => .error e
    | .ok dsObsSel =>
      let dsObs := renameTS (selTimeSliceTS dsObsSel se.1 se.2) "_obs"
      let dsPred := renameTS ds_prediction "_pred"
      .ok (if use_pred_timeframe then mergeTS dsPred dsObs true else mergeTS dsPred dsObs false)

/-! ## Basin file discovery (`stdeephydro/ioutils.py`) -/

/-- Whether the first character list starts with the second. -/
def charsLead : List Char → List Char → Bool
  | _, [] => true
  | [], _ :: _ => false
  | c :: cs, d :: ds => c == d && charsLead cs ds

/-- Whether the second character list occurs as a contiguous run of the
first. -/
def charsHasSub : List Char → List Char → Bool
  | [], sub => sub.isEmpty
  | c :: cs, sub => charsLead (c :: cs) sub || charsHasSub cs sub

/-- Whether a file name matches the glob pattern for a basin
(`*{basin}*`, i.e. the basin ID occurs in the name; an empty basin ID
matches everything, as `*` does). -/
def basinMatches (basin name : String) : Bool :=
  charsHasSub name.data basin.data

/-- `glob.glob(f"{data_dir}/**/*{basin}*", recursive=True)` over a directory
modelled as the list of its file names in traversal order. -/
def globBasinFiles (files : List String) (basin : String) : List String :=
  files.filter (fun f => basinMatches basin f)

/-- `ioutils.discover_single_file_for_basin` (`ioutils.py` lines 14-41):
`FileNotFoundError` when nothing matches; otherwise the first match (more
than one match only logs a warning). -/
def discoverSingleFileForBasin (files : List String) (basin : String) :
    Except PyErr String :=
  match globBasinFiles files basin with
  | [] => .error .fileNotFound
  | f :: _ => .ok f

/-- `ioutils.discover_files_for_basins` (`ioutils.py` lines 44-60). -/
def discoverFilesForBasins (files : List String) (basins : List String) :
    Except PyErr (List String) :=
  exceptMapM (fun b => discoverSingleFileForBasin files b) basins

/-! ## Statement helpers and concrete sample data -/

/-- All non-NaN cell values of one variable of a dataset, as reduced by
`ds.min()` / `ds.max()`. -/
def varCellsVals (x : XDataset) (v : String) : List ℚ :=
  match lookupVar x v with
  | some f => (allIdx x).filterMap f
  | none => []

/-- A small lumped dataset: one basin, two timesteps, one variable `q` with
values 1 and 3. -/
def sampleFun : List Nat → Option ℚ := fun ix =>
  if ix = [0, 0] then some 1 else if ix = [0, 1] then some 3 else none

/-- Sample dataset over coordinates basin and time. -/
def sampleDS : XDataset := ⟨[("basin", 1), ("time", 2)], [("q", sampleFun)]⟩

/-- Sample gridded dataset over coordinates basin, time, y and x. -/
def sampleGridDS : XDataset :=
  ⟨[("basin", 1), ("time", 1), ("y", 1), ("x", 2)],
   [("q", fun ix => if ix = [0, 0, 0, 0] then some 2 else some 6)]⟩

/-- Sample dataset with a coordinate set that fails validation. -/
def sampleBadDS : XDataset := ⟨[("time", 2)], [("q", fun _ => some 1)]⟩

/-- Sample wrapped dataset. -/
def sampleHydro : HydroDataset :=
  ⟨sampleDS, ["q"], "q", "2000-01-01", "2000-01-02"⟩

/-- Per-basin minimum parameters matching `sampleDS`. -/
def sampleMin : XDataset := ⟨[("basin", 1)], [("q", fun _ => some 1)]⟩

/-- Per-basin maximum parameters matching `sampleDS`. -/
def sampleMax : XDataset := ⟨[("basin", 1)], [("q", fun _ => some 3)]⟩

/-- A fitted processor state. -/
def sampleState : Processor := ⟨some ["q"], some (sampleMin, sampleMax)⟩

/-- An unfitted processor state with a variable list. -/
def sampleUnfit : Processor := ⟨some ["q"], none⟩

/-- The dataset produced by processing `sampleHydro` with `sampleState`. -/
def sampleProcessed : HydroDataset :=
  match (Processor.process sampleState sampleHydro).2 with
  | .ok o => o
  | .error _ => sampleHydro

/-- A valid LSTM parameter dict. -/
def sampleLstmParams : TopParams :=
  [("lstm", [("hiddenLayers", .leaf (.jint 1)), ("units", .jlist [.jint 32]),
             ("dropout", .jlist [.jfloat 0])])]

/-- An LSTM parameter dict with zero hidden layers and empty per-layer
lists. -/
def lstmParamsZero : TopParams :=
  [("lstm", [("hiddenLayers", .leaf (.jint 0)), ("units", .jlist []),
             ("dropout", .jlist [])])]

/-- A model config of type `lstm` with valid parameters. -/
def sampleCfgLstm : ModelConfig :=
  ⟨"lstm", sampleLstmParams, "mse", "adam", [], 1, 32, [10], 1, false⟩

/-- A model config with an unknown model type. -/
def sampleCfgBad : ModelConfig :=
  ⟨"transformer", sampleLstmParams, "mse", "adam", [], 1, 32, [10], 1, false⟩

/-- Sample observation table: variable `q` over times 0, 1, 2. -/
def sampleObs : TSDataset :=
  ⟨[0, 1, 2], [("q", [some 5, some 6, some 7])]⟩

/-- Sample prediction table: variable `q` over times 1, 2. -/
def samplePred : TSDataset :=
  ⟨[1, 2], [("q", [some 8, some 9])]⟩

/-- Sample directory contents for file discovery. -/
def sampleFiles : List String := ["a123.nc", "b.nc", "c123.nc"]

/-- The merged observation/prediction table for the samples, using the
prediction timeframe. -/
def sampleMerged : TSDataset :=
  match mergeObservationsAndPredictions sampleObs samplePred true with
  | .ok o => o
  | .error _ => samplePred

/-! ## Helper lemmas -/

theorem lookupPairs_mem {α : Type} {l : List (String × α)} {k : String} {v : α}
    (h : lookupPairs l k = some v) : (k, v) ∈ l := by
  induction l with
  | nil => simp [lookupPairs] at h
  | cons p rest ih =>
    rw [lookupPairs] at h
    split at h
    · rename_i hp
      injection h with h
      obtain ⟨a, b⟩ := p
      simp only at hp h
      subst hp; subst h
      exact List.mem_cons_self _ _
    · exact List.mem_cons_of_mem _ (ih h)

theorem lookupPairs_isSome_iff {α : Type} (l : List (String × α)) (k : String) :
    (lookupPairs l k).isSome = true ↔ k ∈ l.map Prod.fst := by
  induction l with
  | nil => simp [lookupPairs]
  | cons p rest ih =>
    rw [lookupPairs]
    by_cases hp : p.1 = k
    · simp [hp]
    · simp only [hp, if_false, List.map_cons, List.mem_cons, ih]
      constructor
      · intro h; exact Or.inr h
      · rintro (h | h)
        · exact absurd h.symm hp
        · exact h

theorem lookupPairs_map_second {α β : Type} (F : α → β) (l : List (String × α)) (v : String) :
    lookupPairs (l.map (fun nv => (nv.1, F nv.2))) v = (lookupPairs l v).map F := by
  induction l with
  | nil => simp [lookupPairs]
  | cons p rest ih =>
    by_cases hp : p.1 = v <;> simp [lookupPairs, hp, ih]

theorem lookupVar_isSome_iff (x : XDataset) (v : String) :
    (lookupVar x v).isSome = true ↔ v ∈ varNames x :=
  lookupPairs_isSome_iff x.vars v

theorem lookupPairs_binop_aux {α β γ : Type} (bl : List (String × β)) (comb : α → β → γ)
    (l : List (String × α)) (v : String) :
    lookupPairs (l.filterMap (fun nv =>
      (lookupPairs bl nv.1).map (fun g => (nv.1, comb nv.2 g)))) v =
    (lookupPairs l v).bind (fun a => (lookupPairs bl v).map (fun g => comb a g)) := by
  induction l with
  | nil => rfl
  | cons nv rest ih =>
    rw [List.filterMap_cons]
    by_cases hv : nv.1 = v
    · subst hv
      cases hb : lookupPairs bl nv.1 with
      | some gb => simp [lookupPairs, hb]
      | none =>
        simp only [hb, Option.map_none', lookupPairs, if_pos rfl]
        rw [ih, hb]
        cases lookupPairs rest nv.1 <;> rfl
    · cases hb : lookupPairs bl nv.1 with
      | some gb =>
        simp only [hb, Option.map_some', lookupPairs, if_neg hv]
        exact ih
      | none =>
        simp only [hb, Option.map_none', lookupPairs, if_neg hv]
        exact ih

theorem lookupVar_dsBinOp (f : ℚ → ℚ → ℚ) (a b : XDataset) (v : String) :
    lookupVar (dsBinOp f a b) v =
      (lookupVar a v).bind (fun fa => (lookupVar b v).map
        (fun fb => fun ix => olift2 f (fa ix) (fb (projIdx a.dims b.dims ix)))) := by
  unfold dsBinOp lookupVar
  dsimp only
  exact lookupPairs_binop_aux (α := List Nat → Option ℚ) (β := List Nat → Option ℚ)
    (γ := List Nat → Option ℚ) b.vars
    (fun fa g => fun ix => olift2 f (fa ix) (g (projIdx a.dims b.dims ix))) a.vars v

theorem lookupVar_dsReduceMin (x : XDataset) (names : List String) (v : String) :
    lookupVar (dsReduceMin x names) v =
      (lookupVar x v).map (fun f => fun ix => minListQ (reduceCells x.dims names f ix)) := by
  unfold lookupVar dsReduceMin
  exact lookupPairs_map_second (fun f ix => minListQ (reduceCells x.dims names f ix)) x.vars v

theorem lookupVar_dsReduceMax (x : XDataset) (names : List String) (v : String) :
    lookupVar (dsReduceMax x names) v =
      (lookupVar x v).map (fun f => fun ix => maxListQ (reduceCells x.dims names f ix)) := by
  unfold lookupVar dsReduceMax
  exact lookupPairs_map_second (fun f ix => maxListQ (reduceCells x.dims names f ix)) x.vars v

theorem map_fst_filterMap_binop {α β γ : Type} (bl : List (String × β)) (comb : α → β → γ)
    (l : List (String × α)) (h : ∀ v ∈ l.map Prod.fst, (lookupPairs bl v).isSome = true) :
    (l.filterMap (fun nv =>
      (lookupPairs bl nv.1).map (fun g => (nv.1, comb nv.2 g)))).map Prod.fst
      = l.map Prod.fst := by
  induction l with
  | nil => rfl
  | cons nv rest ih =>
    obtain ⟨gb, hb⟩ := Option.isSome_iff_exists.mp (h nv.1 (by simp))
    rw [List.filterMap_cons]
    simp only [hb, Option.map_some', List.map_cons]
    rw [ih (fun v hv => h v (by simp [hv]))]

theorem varNames_dsBinOp_all (f : ℚ → ℚ → ℚ) (a b : XDataset)
    (h : ∀ v ∈ varNames a, (lookupVar b v).isSome = true) :
    varNames (dsBinOp f a b) = varNames a := by
  unfold varNames lookupVar at h
  unfold dsBinOp varNames lookupVar
  dsimp only
  exact map_fst_filterMap_binop (α := List Nat → Option ℚ) (β := List Nat → Option ℚ)
    (γ := List Nat → Option ℚ) b.vars
    (fun fa g => fun ix => olift2 f (fa ix) (g (projIdx a.dims b.dims ix))) a.vars h

theorem mem_varNames_dsBinOp (f : ℚ → ℚ → ℚ) (a b : XDataset) (v : String) :
    v ∈ varNames (dsBinOp f a b) ↔ v ∈ varNames a ∧ v ∈ varNames b := by
  rw [← lookupVar_isSome_iff, ← lookupVar_isSome_iff (x := a), ← lookupVar_isSome_iff (x := b)]
  rw [lookupVar_dsBinOp]
  cases lookupVar a v <;> cases lookupVar b v <;> simp

theorem projIdx_length (l r : List (String × Nat)) (ix : List Nat) :
    (projIdx l r ix).length = r.length := by
  simp [projIdx]

theorem projIdx_self (d : List (String × Nat)) (p : List Nat)
    (hnd : (d.map Prod.fst).Nodup) (hl : p.length = d.length) : projIdx d d p = p := by
  induction d generalizing p with
  | nil =>
    cases p with
    | nil => rfl
    | cons a p' => simp at hl
  | cons q rest ih =>
    cases p with
    | nil => simp at hl
    | cons a p' =>
      simp only [List.map_cons, List.nodup_cons] at hnd
      obtain ⟨hq, hrest⟩ := hnd
      simp only [List.length_cons, Nat.succ.injEq] at hl
      show List.map _ (q :: rest) = a :: p'
      rw [List.map_cons]
      congr 1
      · show (match findDimIdx (q :: rest) q.1 with
          | some i => (a :: p').getD i 0 | none => 0) = a
        rw [findDimIdx, if_pos rfl]
        rfl
      · rw [show List.map _ rest = projIdx rest rest p' from ?_]
        · exact ih p' hrest hl
        · apply List.map_congr_left
          intro r hr
          have hne : r.1 ≠ q.1 := by
            intro hcontra
            exact hq (hcontra ▸ List.mem_map_of_mem Prod.fst hr)
          show (match findDimIdx (q :: rest) r.1 with
            | some i => (a :: p').getD i 0 | none => 0) =
            (match findDimIdx rest r.1 with
            | some i => p'.getD i 0 | none => 0)
          rw [findDimIdx, if_neg (fun hcontra => hne hcontra.symm)]
          cases findDimIdx rest r.1 <;> simp

theorem length_mem_allCombos (s : List Nat) (c : List Nat) (h : c ∈ allCombos s) :
    c.length = s.length := by
  induction s generalizing c with
  | nil => rw [allCombos] at h; simp at h; simp [h]
  | cons n rest ih =>
    rw [allCombos] at h
    simp only [List.mem_flatMap, List.mem_map] at h
    obtain ⟨i, _, c', hc', rfl⟩ := h
    simp [ih c' hc']

theorem removedSizes_all (dims : List (String × Nat)) (names : List String)
    (hall : ∀ p ∈ dims, p.1 ∈ names) :
    removedSizes dims names = dims.map Prod.snd := by
  unfold removedSizes
  rw [List.filter_eq_self.mpr]
  intro p hp
  simp [hall p hp]

theorem keptDims_all (dims : List (String × Nat)) (names : List String)
    (hall : ∀ p ∈ dims, p.1 ∈ names) : keptDims dims names = [] := by
  unfold keptDims
  rw [List.filter_eq_nil_iff]
  intro p hp
  simp [hall p hp]

theorem rebuildIdx_all_removed (dims : List (String × Nat)) (names : List String)
    (hall : ∀ p ∈ dims, p.1 ∈ names) (ix : List Nat) :
    ∀ c, c.length = dims.length → rebuildIdx dims names ix c = c := by
  induction dims with
  | nil =>
    intro c hc
    cases c with
    | nil => rfl
    | cons r rs => simp at hc
  | cons p rest ih =>
    intro c hc
    cases c with
    | nil => simp at hc
    | cons r rs =>
      simp only [List.length_cons, Nat.succ.injEq] at hc
      rw [show rebuildIdx (p :: rest) names ix (r :: rs) =
            r :: rebuildIdx rest names ix rs from by
        rw [rebuildIdx.eq_def]
        simp [hall p (List.mem_cons_self _ _)]]
      rw [ih (fun q hq => hall q (List.mem_cons_of_mem _ hq)) rs hc]

theorem reduceCells_all_dims (x : XDataset) (f : List Nat → Option ℚ) (ix : List Nat) :
    reduceCells x.dims (x.dims.map Prod.fst) f ix = (allIdx x).filterMap f := by
  have hall : ∀ p ∈ x.dims, p.1 ∈ x.dims.map Prod.fst :=
    fun p hp => List.mem_map_of_mem Prod.fst hp
  unfold reduceCells allIdx
  rw [removedSizes_all _ _ hall]
  apply List.filterMap_congr
  intro c hc
  rw [rebuildIdx_all_removed _ _ hall ix c
    (by rw [length_mem_allCombos _ c hc, List.length_map])]

/-! ## Claim theorems -/

/-- **C8.** `discover_single_file_for_basin` raises `FileNotFoundError`
exactly when no file in the directory matches the basin pattern; otherwise it
returns the first matching file (additional matches only produce a
warning, never an error). -/
theorem c8_discover_single_file (files : List String) (basin : String) :
    (discoverSingleFileForBasin files basin = .error .fileNotFound ↔
      globBasinFiles files basin = []) ∧
    (∀ f rest, globBasinFiles files basin = f :: rest →
      discoverSingleFileForBasin files basin = .ok f) := by
  constructor
  · unfold discoverSingleFileForBasin
    cases h : globBasinFiles files basin <;> simp
  · intro f rest h
    unfold discoverSingleFileForBasin
    rw [h]

/-- Witness for C8: on the sample directory, basin `123` matches two files
and discovery returns the first of them. -/
theorem c8_discover_single_file_witness :
    discoverSingleFileForBasin sampleFiles "123" = .ok "a123.nc" :=
  (c8_discover_single_file sampleFiles "123").2 "a123.nc" ["c123.nc"] (by decide)

/-- **C6.** `factory` returns an Lstm/CnnLstm/MultiInputCnnLstm/ConvLstm/
Conv3D model exactly when the configured model type is the matching string,
and raises `ValueError` for every other model type. -/
theorem c6_factory_dispatch (cfg : ModelConfig) :
    (factory cfg = .ok ⟨ModelKind.lstm, cfg⟩ ↔ cfg.model_type = "lstm") ∧
    (factory cfg = .ok ⟨ModelKind.cnnLstm, cfg⟩ ↔ cfg.model_type = "cnn-lstm") ∧
    (factory cfg = .ok ⟨ModelKind.multiCnnLstm, cfg⟩ ↔ cfg.model_type = "multi-cnn-lstm") ∧
    (factory cfg = .ok ⟨ModelKind.convLstm, cfg⟩ ↔ cfg.model_type = "convlstm") ∧
    (factory cfg = .ok ⟨ModelKind.conv3d, cfg⟩ ↔ cfg.model_type = "conv3d") ∧
    (factory cfg = .error .valueError ↔
      cfg.model_type ∉ (["lstm", "cnn-lstm", "multi-cnn-lstm", "convlstm", "conv3d"] : List String)) := by
  unfold factory
  split_ifs with h1 h2 h3 h4 h5 <;> simp_all [Except.isOk, Except.toBool]

/-- Witness for C6: the sample lstm config maps to an `LstmModel` and the
unknown type raises `ValueError`. -/
theorem c6_factory_dispatch_witness :
    factory sampleCfgLstm = .ok ⟨ModelKind.lstm, sampleCfgLstm⟩ ∧
    factory sampleCfgBad = .error .valueError := by
  refine ⟨(c6_factory_dispatch sampleCfgLstm).1.mpr (by decide), ?_⟩
  exact (c6_factory_dispatch sampleCfgBad).2.2.2.2.2.mpr (by decide)

/-- **C1.** Once scaling parameters are stored on the processor, `scale`
applies exactly those stored parameters to any dataset (the expression on
the right mentions only the stored pair `p`, never statistics of the input),
`process` leaves the stored state untouched — so the parameters fit once are
reused unchanged for all subsequent datasets — and the `process` body
likewise uses only `p`. -/
theorem c1_scaling_params_reused (st : Processor) (p : XDataset × XDataset)
    (ds : HydroDataset) (x : XDataset) (h : st.scaling_params = some p) :
    Processor.scale st x = dsDiv (dsSub x p.1) (dsSub p.2 p.1) ∧
    (Processor.process st ds).1 = st ∧
    (Processor.process st ds).2 = Processor.processCore st ds ∧
    Processor.processCore st ds =
      (match Processor.fillna st (dsDiv (dsSub ds.timeseries p.1) (dsSub p.2 p.1)) (-1) with
       | .ok filled => .ok { ds with timeseries := filled }
       | .error e => .error e) := by
  refine ⟨?_, ?_, ?_, ?_⟩
  · unfold Processor.scale
    rw [h]
  · unfold Processor.process
    rw [h]
  · unfold Processor.process
    rw [h]
  · unfold Processor.processCore Processor.scale
    rw [h]

/-- Witness for C1, on the sample fitted processor and sample dataset. -/
theorem c1_scaling_params_reused_witness :
    Processor.scale sampleState sampleDS =
      dsDiv (dsSub sampleDS sampleMin) (dsSub sampleMax sampleMin) ∧
    (Processor.process sampleState sampleHydro).1 = sampleState ∧
    (Processor.process sampleState sampleHydro).2 =
      Processor.processCore sampleState sampleHydro ∧
    Processor.processCore sampleState sampleHydro =
      (match Processor.fillna sampleState
          (dsDiv (dsSub sampleHydro.timeseries sampleMin) (dsSub sampleMax sampleMin)) (-1) with
       | .ok filled => .ok { sampleHydro with timeseries := filled }
       | .error e => .error e) :=
  c1_scaling_params_reused sampleState (sampleMin, sampleMax) sampleHydro sampleDS rfl

/-- **C2.** Whenever `process` succeeds, the returned dataset has the same
feature columns, target column and date range as the input, and its
timeseries is exactly the scaled and NaN-filled transform of the input's
timeseries (under the post-fit state).  The embedding is functional, which
matches the source: `copy.copy` plus the fresh array built by `scale` leave
the caller's dataset object and its original timeseries untouched. -/
theorem c2_process_shallow_copy (st : Processor) (ds out : HydroDataset)
    (h : (Processor.process st ds).2 = .ok out) :
    out.feature_cols = ds.feature_cols ∧ out.target_col = ds.target_col ∧
    out.start_date = ds.start_date ∧ out.end_date = ds.end_date ∧
    Processor.fillna ((Processor.process st ds).1)
      (Processor.scale ((Processor.process st ds).1) ds.timeseries) (-1) =
      .ok out.timeseries := by
  have hcore : ∀ st' : Processor, Processor.processCore st' ds = .ok out →
      out.feature_cols = ds.feature_cols ∧ out.target_col = ds.target_col ∧
      out.start_date = ds.start_date ∧ out.end_date = ds.end_date ∧
      Processor.fillna st' (Processor.scale st' ds.timeseries) (-1) =
        .ok out.timeseries := by
    intro st' hc
    unfold Processor.processCore at hc
    cases hf : Processor.fillna st' (Processor.scale st' ds.timeseries) (-1) with
    | ok filled =>
      rw [hf] at hc
      injection hc with hc
      subst hc
      exact ⟨rfl, rfl, rfl, rfl, rfl⟩
    | error e =>
      rw [hf] at hc
      exact absurd hc (by simp)
  cases hsp : st.scaling_params with
  | some p =>
    have hpr : Processor.process st ds = (st, Processor.processCore st ds) := by
      unfold Processor.process
      rw [hsp]
    rw [hpr] at h ⊢
    exact hcore st h
  | none =>
    cases hfit : Processor.fit_scaling_params ds.timeseries with
    | error e =>
      have hpr : Processor.process st ds = (st, .error e) := by
        unfold Processor.process
        rw [hsp, hfit]
      rw [hpr] at h
      exact absurd h (by simp)
    | ok p =>
      have hpr : Processor.process st ds =
          ({ st with scaling_params := some p },
           Processor.processCore { st with scaling_params := some p } ds) := by
        unfold Processor.process
        rw [hsp, hfit]
      rw [hpr] at h ⊢
      exact hcore _ h

/-- Witness for C2, on the sample fitted processor and dataset. -/
theorem c2_process_shallow_copy_witness :
    sampleProcessed.feature_cols = sampleHydro.feature_cols ∧
    sampleProcessed.target_col = sampleHydro.target_col ∧
    sampleProcessed.start_date = sampleHydro.start_date ∧
    sampleProcessed.end_date = sampleHydro.end_date ∧
    Processor.fillna ((Processor.process sampleState sampleHydro).1)
      (Processor.scale ((Processor.process sampleState sampleHydro).1)
        sampleHydro.timeseries) (-1) = .ok sampleProcessed.timeseries :=
  c2_process_shallow_copy sampleState sampleHydro sampleProcessed (by rfl)

/-- **C3.** Fitting validates the coordinate set: coordinates containing
basin, time, y and x reduce the min/max parameters over time, y and x;
coordinates containing basin and time (but not all of y, x) reduce over time
only; fitting raises `ValueError` exactly when neither coordinate set is
contained. -/
theorem c3_fit_coordinate_validation (x : XDataset) :
    ((∀ n ∈ (["basin", "time", "y", "x"] : List String), n ∈ coordNames x) →
      Processor.fit_scaling_params x =
        .ok (dsReduceMin x ["time", "y", "x"], dsReduceMax x ["time", "y", "x"])) ∧
    (¬ (∀ n ∈ (["basin", "time", "y", "x"] : List String), n ∈ coordNames x) →
      (∀ n ∈ (["basin", "time"] : List String), n ∈ coordNames x) →
      Processor.fit_scaling_params x =
        .ok (dsReduceMin x ["time"], dsReduceMax x ["time"])) ∧
    (Processor.fit_scaling_params x = .error .valueError ↔
      (¬ (∀ n ∈ (["basin", "time", "y", "x"] : List String), n ∈ coordNames x) ∧
       ¬ (∀ n ∈ (["basin", "time"] : List String), n ∈ coordNames x))) := by
  unfold Processor.fit_scaling_params
  refine ⟨fun h1 => by rw [if_pos h1], fun h1 h2 => by rw [if_neg h1, if_pos h2], ?_⟩
  split_ifs with h1 h2
  · exact iff_of_false (by simp) (fun hc => hc.1 h1)
  · exact iff_of_false (by simp) (fun hc => hc.2 h2)
  · exact iff_of_true rfl ⟨h1, h2⟩

/-- Witness for C3: the gridded sample reduces over time/y/x, the lumped
sample over time only, and the sample without a basin coordinate is
rejected. -/
theorem c3_fit_coordinate_validation_witness :
    Processor.fit_scaling_params sampleGridDS =
      .ok (dsReduceMin sampleGridDS ["time", "y", "x"],
           dsReduceMax sampleGridDS ["time", "y", "x"]) ∧
    Processor.fit_scaling_params sampleDS =
      .ok (dsReduceMin sampleDS ["time"], dsReduceMax sampleDS ["time"]) ∧
    Processor.fit_scaling_params sampleBadDS = .error .valueError :=
  ⟨(c3_fit_coordinate_validation sampleGridDS).1 (by decide),
   (c3_fit_coordinate_validation sampleDS).2.1 (by decide) (by decide),
   (c3_fit_coordinate_validation sampleBadDS).2.2.mpr ⟨by decide, by decide⟩⟩

/-- **C4.** `scale` is exactly the per-variable min/max transform
`(ds - min) / (max - min)`: the parameter pair it uses is the stored one
when the processor has been fit and the per-variable minimum/maximum of the
input dataset itself otherwise, where those unfit parameters are precisely
the min/max over all of each variable's (non-NaN) cells. -/
theorem c4_scale_is_minmax_scaling (st : Processor) (x : XDataset) :
    Processor.scale st x =
      dsDiv (dsSub x (Processor.scaleParamsUsed st x).1)
        (dsSub (Processor.scaleParamsUsed st x).2 (Processor.scaleParamsUsed st x).1) ∧
    (∀ p, st.scaling_params = some p → Processor.scaleParamsUsed st x = p) ∧
    (st.scaling_params = none →
      Processor.scaleParamsUsed st x = (dsMinAll x, dsMaxAll x) ∧
      ∀ v ∈ varNames x, ∀ ix : List Nat,
        cellVal (dsMinAll x) v ix = minListQ (varCellsVals x v) ∧
        cellVal (dsMaxAll x) v ix = maxListQ (varCellsVals x v)) := by
  obtain ⟨vl, sp⟩ := st
  refine ⟨?_, ?_, ?_⟩
  · cases sp <;> rfl
  · intro p hp
    cases sp with
    | none => exact absurd hp (by simp)
    | some q => exact Option.some.inj hp
  · intro hsp
    cases sp with
    | some q => exact absurd hsp (by simp)
    | none => ?_
    refine ⟨rfl, ?_⟩
    intro v hv ix
    obtain ⟨f, hf⟩ := Option.isSome_iff_exists.mp ((lookupVar_isSome_iff x v).mpr hv)
    constructor
    · unfold cellVal dsMinAll
      rw [lookupVar_dsReduceMin, hf]
      simp only [Option.map_some']
      rw [reduceCells_all_dims]
      unfold varCellsVals
      rw [hf]
    · unfold cellVal dsMaxAll
      rw [lookupVar_dsReduceMax, hf]
      simp only [Option.map_some']
      rw [reduceCells_all_dims]
      unfold varCellsVals
      rw [hf]

theorem tsKeys_mergeTS (a b : TSDataset) (u : Bool) :
    tsKeys (mergeTS a b u) = tsKeys a ++ tsKeys b := by
  show ((reindexTS _ a).vars ++ (reindexTS _ b).vars).map Prod.fst = _
  rw [List.map_append]
  congr 1 <;>
    · unfold reindexTS tsKeys
      rw [List.map_map]
      exact List.map_congr_left (fun nv _ => rfl)

theorem tsKeys_renameTS (ds : TSDataset) (suf : String) :
    tsKeys (renameTS ds suf) = (tsKeys ds).map (fun v => v ++ suf) := by
  unfold renameTS tsKeys
  rw [List.map_map, List.map_map]
  exact List.map_congr_left (fun nv _ => rfl)

theorem tsKeys_selTimeSliceTS (ds : TSDataset) (a b : Int) :
    tsKeys (selTimeSliceTS ds a b) = tsKeys ds := by
  unfold selTimeSliceTS tsKeys
  rw [List.map_map]
  exact List.map_congr_left (fun nv _ => rfl)

theorem selVarsTS_ok (ds : TSDataset) (vs : List String) (out : TSDataset)
    (h : selVarsTS ds vs = .ok out) : tsKeys out = vs ∧ out.times = ds.times := by
  unfold selVarsTS at h
  split at h
  · injection h with h
    subst h
    refine ⟨?_, rfl⟩
    unfold tsKeys
    rw [List.map_map]
    rw [show (Prod.fst ∘ fun v => (v, (tsLookup ds v).getD [])) = id from rfl]
    exact List.map_id vs
  · exact absurd h (by simp)

theorem sorted_head_le (a : Int) (l : List Int) (hs : List.Sorted (· ≤ ·) (a :: l)) :
    ∀ t ∈ a :: l, a ≤ t := by
  intro t ht
  rcases List.mem_cons.mp ht with h | h
  · exact h ▸ le_refl a
  · exact (List.sorted_cons.mp hs).1 t h

theorem sorted_le_getLast (l : List Int) (hs : List.Sorted (· ≤ ·) l) (e : Int)
    (he : l.getLast? = some e) : ∀ t ∈ l, t ≤ e := by
  induction l with
  | nil => intro t ht; simp at ht
  | cons a rest ih =>
    intro t ht
    cases rest with
    | nil =>
      simp at he ht
      rw [ht, ← he]
    | cons b r =>
      have hlast : (b :: r).getLast? = some e := by
        rw [← he]
        rfl
      rcases List.mem_cons.mp ht with h | h
      · subst h
        have hbmem : e ∈ b :: r := by
          rcases List.mem_getLast?_eq_getLast (by rw [hlast]; rfl) with ⟨hne, hee⟩
          rw [hee]
          exact List.getLast_mem hne
        exact (List.sorted_cons.mp hs).1 e hbmem
      · exact ih (List.sorted_cons.mp hs).2 hlast t h

theorem sorted_filter_between (l : List Int) (hs : List.Sorted (· ≤ ·) l) (s e : Int)
    (hfirst : firstTime l = .ok s) (hlast : lastTime l = .ok e) :
    l.filter (fun t => decide (s ≤ t) && decide (t ≤ e)) = l := by
  apply List.filter_eq_self.mpr
  intro t ht
  have h1 : s ≤ t := by
    cases l with
    | nil => exact absurd hfirst (by simp [firstTime])
    | cons a rest =>
      have : a = s := by
        unfold firstTime at hfirst
        injection hfirst
      exact this ▸ sorted_head_le a rest hs t ht
  have h2 : t ≤ e := by
    unfold lastTime at hlast
    cases hg : l.getLast? with
    | none => rw [hg] at hlast; exact absurd hlast (by simp)
    | some e2 =>
      rw [hg] at hlast
      injection hlast with hlast
      exact hlast ▸ sorted_le_getLast l hs e2 hg t ht
  simp [h1, h2]

/-- Witness for C4: the fitted sample processor uses its stored pair, the
unfitted one uses the input's own min/max, whose `q` entry evaluates to the
min/max over the cells of `q`. -/
theorem c4_scale_is_minmax_scaling_witness :
    Processor.scaleParamsUsed sampleState sampleDS = (sampleMin, sampleMax) ∧
    Processor.scaleParamsUsed sampleUnfit sampleDS = (dsMinAll sampleDS, dsMaxAll sampleDS) ∧
    cellVal (dsMinAll sampleDS) "q" [] = minListQ (varCellsVals sampleDS "q") ∧
    cellVal (dsMaxAll sampleDS) "q" [] = maxListQ (varCellsVals sampleDS "q") :=
  ⟨(c4_scale_is_minmax_scaling sampleState sampleDS).2.1 (sampleMin, sampleMax) rfl,
   ((c4_scale_is_minmax_scaling sampleUnfit sampleDS).2.2 rfl).1,
   ((c4_scale_is_minmax_scaling sampleUnfit sampleDS).2.2 rfl).2 "q" (by decide) []⟩

theorem wrapKeyError_ok {α : Type} (x : Except PyErr α) (a : α) :
    wrapKeyError x = .ok a ↔ x = .ok a := by
  cases x with
  | ok b => simp [wrapKeyError]
  | error e => cases e <;> simp [wrapKeyError]

theorem pyIndex_int_ok {α : Type} (xs : List α) (i : Int) (h0 : 0 ≤ i)
    (hlt : i < (xs.length : Int)) : ∃ a, pyIndex xs i = .ok a := by
  unfold pyIndex
  rw [if_neg (by omega)]
  have hj : ¬ ((if i < 0 then i + xs.length else i) < 0) := by
    split <;> omega
  have hi : (if i < 0 then i + xs.length else i).toNat < xs.length := by
    split <;> omega
  cases hg : xs.get? (if i < 0 then i + xs.length else i).toNat with
  | none =>
    rw [List.get?_eq_none] at hg
    omega
  | some a => exact ⟨a, rfl⟩

theorem exceptMapM_ok {α β : Type} (f : α → Except PyErr β) (l : List α)
    (h : ∀ a ∈ l, ∃ b, f a = .ok b) : ∃ bs, exceptMapM f l = .ok bs := by
  induction l with
  | nil => exact ⟨[], rfl⟩
  | cons a rest ih =>
    obtain ⟨b, hb⟩ := h a (List.mem_cons_self _ _)
    obtain ⟨bs, hbs⟩ := ih (fun a ha => h a (List.mem_cons_of_mem _ ha))
    refine ⟨b :: bs, ?_⟩
    unfold exceptMapM
    rw [hb, hbs]

theorem stackedLstmLayers_ok (us dr : List JLeaf) (n : Nat)
    (hus : n ≤ us.length) (hdr : n ≤ dr.length) :
    ∃ ls, stackedLstmLayers us dr n = .ok ls := by
  apply exceptMapM_ok
  intro i hi
  have hi' : i < n := List.mem_range.mp hi
  obtain ⟨u, hu⟩ := pyIndex_int_ok us (i : Int) (by omega) (by omega)
  obtain ⟨d, hd⟩ := pyIndex_int_ok dr (i : Int) (by omega) (by omega)
  exact ⟨Layer.lstmL u true (some d), by rw [hu, hd]⟩

theorem validateLstm_ok_lengths (p : TopParams) (n : Int) (us dr : List JLeaf)
    (h : validateLstmParams p = .ok (.leaf (.jint n), .jlist us, .jlist dr)) :
    (us.length : Int) = n ∧ (dr.length : Int) = n := by
  unfold validateLstmParams at h
  rw [wrapKeyError_ok] at h
  unfold validateLstmCore at h
  repeat' split at h
  all_goals simp_all [pyLen, pyEqIntJ]

theorem factory_isOk_iff (cfg : ModelConfig) :
    (factory cfg).isOk = true ↔
      cfg.model_type ∈
        (["lstm", "cnn-lstm", "multi-cnn-lstm", "convlstm", "conv3d"] : List String) := by
  unfold factory
  split_ifs with h1 h2 h3 h4 h5 <;> simp_all [Except.isOk, Except.toBool]

theorem wellTyped_sub {p : TopParams} (hw : wellTypedParams p = true) {k : String}
    {sub : SubDict} (h : lookupPairs p k = some sub) :
    ∀ kv ∈ sub, wtVal kv.1 kv.2 = true := by
  have hmem := lookupPairs_mem h
  have hall := List.all_eq_true.mp hw _ hmem
  exact fun kv hkv => List.all_eq_true.mp hall kv hkv

theorem wt_hiddenLayers {sub : SubDict}
    (hsub : ∀ kv ∈ sub, wtVal kv.1 kv.2 = true) {v : JVal}
    (h : lookupPairs sub "hiddenLayers" = some v) : ∃ m : Int, v = .leaf (.jint m) := by
  have hwt := hsub _ (lookupPairs_mem h)
  simp only [wtVal] at hwt
  cases v with
  | jlist xs => simp [isIntVal] at hwt
  | leaf x =>
    cases x with
    | jint m => exact ⟨m, rfl⟩
    | jfloat q => simp [isIntVal] at hwt
    | jbool b => simp [isIntVal] at hwt
    | jstr t => simp [isIntVal] at hwt

theorem wt_listKey {sub : SubDict}
    (hsub : ∀ kv ∈ sub, wtVal kv.1 kv.2 = true) {k : String} {v : JVal}
    (hk : k = "units" ∨ k = "dropout" ∨ k = "filters")
    (h : lookupPairs sub k = some v) : ∃ xs, v = .jlist xs := by
  have hwt := hsub _ (lookupPairs_mem h)
  rcases hk with rfl | rfl | rfl <;>
  · simp only [wtVal] at hwt
    cases v with
    | jlist xs => exact ⟨xs, rfl⟩
    | leaf x => simp [isListVal] at hwt

theorem validateLstm_configError_iff (p : TopParams) (hw : wellTypedParams p = true) :
    (validateLstmParams p = .error .configError) ↔
      (lstmKeysMissing p || lstmLenMismatch p) = true := by
  unfold validateLstmParams validateLstmCore lstmKeysMissing lstmLenMismatch dget
  cases hsub : lookupPairs p "lstm" with
  | none => simp [wrapKeyError]
  | some sub =>
    have hsubwt := wellTyped_sub hw hsub
    dsimp only
    cases hhl : lookupPairs sub "hiddenLayers" with
    | none => simp [wrapKeyError]
    | some hlv =>
      dsimp only
      cases hus : lookupPairs sub "units" with
      | none => simp [wrapKeyError]
      | some uv =>
        dsimp only
        obtain ⟨xs, rfl⟩ := wt_listKey hsubwt (Or.inl rfl) hus
        by_cases heq : pyEqIntJ (xs.length : Int) hlv = true
        · cases hdr : lookupPairs sub "dropout" with
          | none => simp [wrapKeyError, pyLen, jlistLenNe, heq]
          | some dv =>
            dsimp only
            obtain ⟨ys, rfl⟩ := wt_listKey hsubwt (Or.inr (Or.inl rfl)) hdr
            by_cases heq2 : pyEqIntJ (ys.length : Int) hlv = true
            · simp [wrapKeyError, pyLen, jlistLenNe, heq, heq2]
            · simp [wrapKeyError, pyLen, jlistLenNe, heq, heq2]
        · simp [wrapKeyError, pyLen, jlistLenNe, heq]

theorem cnnPart_configError_iff (sub : SubDict)
    (hsubwt : ∀ kv ∈ sub, wtVal kv.1 kv.2 = true) :
    (cnnPartValidate sub = .error .configError) ↔
      (cnnKeysMissingSub sub || cnnMismatchSub sub) = true := by
  unfold cnnPartValidate cnnPartCore cnnKeysMissingSub cnnMismatchSub dget
  cases hhl : lookupPairs sub "hiddenLayers" with
  | none => simp [wrapKeyError]
  | some hlv =>
    dsimp only
    obtain ⟨m, rfl⟩ := wt_hiddenLayers hsubwt hhl
    cases hfs : lookupPairs sub "filters" with
    | none => simp [wrapKeyError]
    | some fv =>
      dsimp only
      obtain ⟨xs, rfl⟩ := wt_listKey hsubwt (Or.inr (Or.inr rfl)) hfs
      by_cases hneg : m < 0
      · simp [wrapKeyError, isPyInt, pyLtZero, pyLen, jlistLenNe, pyEqIntJ, hneg]
        omega
      · by_cases heq : ((xs.length : Int) = m)
        · simp [wrapKeyError, isPyInt, pyLtZero, pyLen, jlistLenNe, pyEqIntJ, hneg, heq]
        · simp [wrapKeyError, isPyInt, pyLtZero, pyLen, jlistLenNe, pyEqIntJ, hneg, heq]

theorem lstmPart_configError_iff (sub : SubDict)
    (hsubwt : ∀ kv ∈ sub, wtVal kv.1 kv.2 = true) :
    (lstmPartValidate sub = .error .configError) ↔
      (lstmKeysMissingSub sub || lstmMismatchSub sub) = true := by
  unfold lstmPartValidate lstmPartCore lstmKeysMissingSub lstmMismatchSub dget
  cases hhl : lookupPairs sub "hiddenLayers" with
  | none => simp [wrapKeyError]
  | some hlv =>
    dsimp only
    obtain ⟨m, rfl⟩ := wt_hiddenLayers hsubwt hhl
    cases hus : lookupPairs sub "units" with
    | none => simp [wrapKeyError]
    | some uv =>
      dsimp only
      obtain ⟨xs, rfl⟩ := wt_listKey hsubwt (Or.inl rfl) hus
      by_cases hneg : m < 0
      · simp [wrapKeyError, isPyInt, pyLtZero, pyLen, jlistLenNe, pyEqIntJ, hneg]
        omega
      · by_cases heq : ((xs.length : Int) = m)
        · cases hdr : lookupPairs sub "dropout" with
          | none =>
            simp [wrapKeyError, isPyInt, pyLtZero, pyLen, jlistLenNe, pyEqIntJ, hneg, heq]
          | some dv =>
            dsimp only
            obtain ⟨ys, rfl⟩ := wt_listKey hsubwt (Or.inr (Or.inl rfl)) hdr
            by_cases heq2 : ((ys.length : Int) = m)
            · simp [wrapKeyError, isPyInt, pyLtZero, pyLen, jlistLenNe, pyEqIntJ,
                hneg, heq, heq2]
            · simp [wrapKeyError, isPyInt, pyLtZero, pyLen, jlistLenNe, pyEqIntJ,
                hneg, heq, heq2]
        · simp [wrapKeyError, isPyInt, pyLtZero, pyLen, jlistLenNe, pyEqIntJ, hneg, heq]

theorem cnnPart_error_is_config (sub : SubDict)
    (hsubwt : ∀ kv ∈ sub, wtVal kv.1 kv.2 = true) (e : PyErr)
    (h : cnnPartValidate sub = .error e) : e = .configError := by
  unfold cnnPartValidate cnnPartCore dget at h
  cases hhl : lookupPairs sub "hiddenLayers" with
  | none =>
    rw [hhl] at h
    simp [wrapKeyError] at h
    exact h.symm
  | some hlv =>
    obtain ⟨m, rfl⟩ := wt_hiddenLayers hsubwt hhl
    rw [hhl] at h
    cases hfs : lookupPairs sub "filters" with
    | none =>
      rw [hfs] at h
      simp [wrapKeyError] at h
      exact h.symm
    | some fv =>
      obtain ⟨xs, rfl⟩ := wt_listKey hsubwt (Or.inr (Or.inr rfl)) hfs
      rw [hfs] at h
      by_cases hneg : m < 0
      · simp [wrapKeyError, isPyInt, pyLtZero, pyLen, hneg] at h
        exact h.symm
      · by_cases heq : ((xs.length : Int) = m)
        · simp [wrapKeyError, isPyInt, pyLtZero, pyLen, pyEqIntJ, hneg, heq] at h
        · simp [wrapKeyError, isPyInt, pyLtZero, pyLen, pyEqIntJ, hneg, heq] at h
          exact h.symm

theorem lstmPart_error_is_config (sub : SubDict)
    (hsubwt : ∀ kv ∈ sub, wtVal kv.1 kv.2 = true) (e : PyErr)
    (h : lstmPartValidate sub = .error e) : e = .configError := by
  unfold lstmPartValidate lstmPartCore dget at h
  cases hhl : lookupPairs sub "hiddenLayers" with
  | none =>
    rw [hhl] at h
    simp [wrapKeyError] at h
    exact h.symm
  | some hlv =>
    obtain ⟨m, rfl⟩ := wt_hiddenLayers hsubwt hhl
    rw [hhl] at h
    cases hus : lookupPairs sub "units" with
    | none =>
      rw [hus] at h
      simp [wrapKeyError] at h
      exact h.symm
    | some uv =>
      obtain ⟨xs, rfl⟩ := wt_listKey hsubwt (Or.inl rfl) hus
      rw [hus] at h
      by_cases hneg : m < 0
      · simp [wrapKeyError, isPyInt, pyLtZero, pyLen, hneg] at h
        exact h.symm
      · by_cases heq : ((xs.length : Int) = m)
        · cases hdr : lookupPairs sub "dropout" with
          | none =>
            rw [hdr] at h
            simp [wrapKeyError, isPyInt, pyLtZero, pyLen, pyEqIntJ, hneg, heq] at h
            exact h.symm
          | some dv =>
            obtain ⟨ys, rfl⟩ := wt_listKey hsubwt (Or.inr (Or.inl rfl)) hdr
            rw [hdr] at h
            by_cases heq2 : ((ys.length : Int) = m)
            · simp [wrapKeyError, isPyInt, pyLtZero, pyLen, pyEqIntJ, hneg, heq, heq2] at h
            · simp [wrapKeyError, isPyInt, pyLtZero, pyLen, pyEqIntJ, hneg, heq, heq2] at h
              exact h.symm
        · simp [wrapKeyError, isPyInt, pyLtZero, pyLen, pyEqIntJ, hneg, heq] at h
          exact h.symm

theorem validateCnnLstm_configError_iff (p : TopParams) (hw : wellTypedParams p = true) :
    (validateCnnLstmParams p = .error .configError) ↔
      (cnnLstmKeysMissing p || cnnLstmMismatch p) = true := by
  unfold validateCnnLstmParams cnnLstmKeysMissing cnnLstmMismatch dget
  cases hc : lookupPairs p "cnn" with
  | none => simp [wrapKeyError]
  | some c =>
    dsimp only
    have hcwt := wellTyped_sub hw hc
    cases hcv : cnnPartValidate c with
    | error e =>
      have he := cnnPart_error_is_config c hcwt e hcv
      subst he
      have hb := (cnnPart_configError_iff c hcwt).mp hcv
      have hb2 : cnnKeysMissingSub c = true ∨ cnnMismatchSub c = true := by simpa using hb
      rcases hb2 with ha | ha <;> simp [wrapKeyError, ha]
    | ok t =>
      obtain ⟨hc2, fs⟩ := t
      dsimp only
      have hbf : (cnnKeysMissingSub c || cnnMismatchSub c) = false := by
        cases hbb : (cnnKeysMissingSub c || cnnMismatchSub c) with
        | false => rfl
        | true =>
          have hcontra := (cnnPart_configError_iff c hcwt).mpr hbb
          rw [hcv] at hcontra
          exact absurd hcontra (by simp)
      simp only [Bool.or_eq_false_iff] at hbf
      cases hl : lookupPairs p "lstm" with
      | none => simp [wrapKeyError, hbf.1, hbf.2]
      | some l =>
        dsimp only
        have hlwt := wellTyped_sub hw hl
        cases hlv : lstmPartValidate l with
        | error e2 =>
          have he := lstmPart_error_is_config l hlwt e2 hlv
          subst he
          have hbl := (lstmPart_configError_iff l hlwt).mp hlv
          have hbl2 : lstmKeysMissingSub l = true ∨ lstmMismatchSub l = true := by
            simpa using hbl
          rcases hbl2 with ha | ha <;> simp [wrapKeyError, ha, hbf.1, hbf.2]
        | ok t2 =>
          obtain ⟨hl2, us2, dr2⟩ := t2
          dsimp only
          have hblf : (lstmKeysMissingSub l || lstmMismatchSub l) = false := by
            cases hbb : (lstmKeysMissingSub l || lstmMismatchSub l) with
            | false => rfl
            | true =>
              have hcontra := (lstmPart_configError_iff l hlwt).mpr hbb
              rw [hlv] at hcontra
              exact absurd hcontra (by simp)
          simp only [Bool.or_eq_false_iff] at hblf
          simp [wrapKeyError, hbf.1, hbf.2, hblf.1, hblf.2]

theorem validateMulti_eq (p : TopParams) :
    validateMultiCnnLstmParams p = validateCnnLstmParams p := rfl

theorem validateConv3d_eq (p : TopParams) :
    validateConv3dParams p = validateConvLstmParams p := rfl

theorem validateConvLstm_configError_iff (p : TopParams) (hw : wellTypedParams p = true) :
    (validateConvLstmParams p = .error .configError) ↔
      (convKeysMissing p || convMismatch p) = true := by
  unfold validateConvLstmParams convKeysMissing convMismatch dget
  cases hc : lookupPairs p "cnn" with
  | none => simp [wrapKeyError]
  | some c =>
    dsimp only
    have hcwt := wellTyped_sub hw hc
    cases hcv : cnnPartValidate c with
    | error e =>
      have he := cnnPart_error_is_config c hcwt e hcv
      subst he
      have hb := (cnnPart_configError_iff c hcwt).mp hcv
      have hb2 : cnnKeysMissingSub c = true ∨ cnnMismatchSub c = true := by simpa using hb
      rcases hb2 with ha | ha <;> simp [wrapKeyError, ha]
    | ok t =>
      have hbf : (cnnKeysMissingSub c || cnnMismatchSub c) = false := by
        cases hbb : (cnnKeysMissingSub c || cnnMismatchSub c) with
        | false => rfl
        | true =>
          have hcontra := (cnnPart_configError_iff c hcwt).mpr hbb
          rw [hcv] at hcontra
          exact absurd hcontra (by simp)
      simp only [Bool.or_eq_false_iff] at hbf
      simp [wrapKeyError, hbf.1, hbf.2]

theorem pyIndex_ne_config {α : Type} (xs : List α) (i : Int) :
    pyIndex xs i ≠ .error .configError := by
  unfold pyIndex
  dsimp only
  split <;> split <;> try simp
  all_goals split <;> simp

theorem exceptMapM_ne_config {α β : Type} (f : α → Except PyErr β)
    (hf : ∀ a, f a ≠ .error .configError) (l : List α) :
    exceptMapM f l ≠ .error .configError := by
  induction l with
  | nil => simp [exceptMapM]
  | cons a rest ih =>
    unfold exceptMapM
    cases hfa : f a with
    | error e =>
      intro hcontra
      injection hcontra with he
      exact hf a (by rw [hfa, he])
    | ok b =>
      cases hrest : exceptMapM f rest with
      | error e =>
        intro hcontra
        injection hcontra with he
        exact ih (by rw [hrest, he])
      | ok bs => simp

theorem stackedLstmLayers_ne_config (us dr : List JLeaf) (n : Nat) :
    stackedLstmLayers us dr n ≠ .error .configError := by
  apply exceptMapM_ne_config
  intro i
  cases hu : pyIndex us (i : Int) with
  | error e =>
    intro hcontra
    injection hcontra with he
    exact pyIndex_ne_config us (i : Int) (by rw [hu, he])
  | ok u =>
    cases hd : pyIndex dr (i : Int) with
    | error e =>
      intro hcontra
      injection hcontra with he
      exact pyIndex_ne_config dr (i : Int) (by rw [hd, he])
    | ok d => simp

theorem stackedFilterBlocks_ne_config (blockOf : JLeaf → List Layer)
    (fs : List JLeaf) (n : Nat) :
    stackedFilterBlocks blockOf fs n ≠ .error .configError := by
  intro hcontra
  unfold stackedFilterBlocks at hcontra
  split at hcontra
  · rename_i e heq
    injection hcontra with he
    subst he
    refine exceptMapM_ne_config _ ?_ (List.range n) heq
    intro i
    cases hp : pyIndex fs (i : Int) with
    | error e2 =>
      intro hc2
      injection hc2 with he2
      exact pyIndex_ne_config fs (i : Int) (by rw [hp, he2])
    | ok fl => simp
  · exact Except.noConfusion hcontra

theorem lstmBuildModel_ne_config (sh : ShapeArg) (t : JVal × JVal × JVal)
    (os : Option Int) : lstmBuildModel sh t os ≠ .error .configError := by
  intro h
  unfold lstmBuildModel at h
  repeat' split at h
  all_goals simp_all [stackedLstmLayers_ne_config, pyIndex_ne_config]

theorem cnnLstmBuildModel_ne_config (sh : ShapeArg)
    (t : JVal × JVal × JVal × JVal × JVal) (os : Option Int) :
    cnnLstmBuildModel sh t os ≠ .error .configError := by
  intro h
  unfold cnnLstmBuildModel at h
  repeat' split at h
  all_goals simp_all [stackedLstmLayers_ne_config, stackedFilterBlocks_ne_config,
    pyIndex_ne_config]

theorem multiCnnLstmBuildModel_ne_config (sh : ShapeArg)
    (t : JVal × JVal × JVal × JVal × JVal) (os : Option Int) :
    multiCnnLstmBuildModel sh t os ≠ .error .configError := by
  intro h
  unfold multiCnnLstmBuildModel at h
  repeat' split at h
  all_goals simp_all [stackedLstmLayers_ne_config, stackedFilterBlocks_ne_config,
    pyIndex_ne_config]

theorem convLstmBuildModel_ne_config (sh : ShapeArg) (t : JVal × JVal)
    (os : Option Int) : convLstmBuildModel sh t os ≠ .error .configError := by
  intro h
  unfold convLstmBuildModel at h
  repeat' split at h
  all_goals simp_all [stackedFilterBlocks_ne_config, pyIndex_ne_config]

theorem conv3dBuildModel_ne_config (sh : ShapeArg) (t : JVal × JVal)
    (os : Option Int) : conv3dBuildModel sh t os ≠ .error .configError := by
  intro h
  unfold conv3dBuildModel at h
  repeat' split at h
  all_goals simp_all [stackedFilterBlocks_ne_config, pyIndex_ne_config]

theorem olift2_none_left (f : ℚ → ℚ → ℚ) (y : Option ℚ) : olift2 f none y = none := by
  cases y <;> rfl

/-- **C9.** Over exact arithmetic, `rescale` inverts `scale` under the same
stored parameters: for a fitted processor whose per-variable min/max
parameters cover the dataset's variables, are numeric at every broadcast
cell, and satisfy max distinct from min, `rescale (scale ds)` succeeds and
returns a dataset extensionally equal to `ds` (NaN cells included, since
both transforms propagate NaN). -/
theorem c9_rescale_inverts_scale (st : Processor) (mn mx x : XDataset)
    (h1 : st.scaling_params = some (mn, mx))
    (h2 : mx.dims = mn.dims)
    (h3 : (mn.dims.map Prod.fst).Nodup)
    (hmem : ∀ v ∈ varNames x, v ∈ varNames mn ∧ v ∈ varNames mx)
    (hnd : ∀ v ∈ varNames x, ∀ ix ∈ allIdx x,
      cellVal mn v (projIdx x.dims mn.dims ix) ≠ none ∧
      cellVal mx v (projIdx x.dims mn.dims ix) ≠ none ∧
      cellVal mx v (projIdx x.dims mn.dims ix) ≠ cellVal mn v (projIdx x.dims mn.dims ix)) :
    ∃ r, Processor.rescale st (Processor.scale st x) = .ok r ∧ dsEquiv r x := by
  have hscale : Processor.scale st x =
      dsBinOp (· / ·) (dsBinOp (· - ·) x mn) (dsBinOp (· - ·) mx mn) := by
    unfold Processor.scale
    rw [h1]
    rfl
  have hresc : Processor.rescale st (Processor.scale st x) =
      .ok (dsBinOp (· + ·)
        (dsBinOp (· * ·)
          (dsBinOp (· / ·) (dsBinOp (· - ·) x mn) (dsBinOp (· - ·) mx mn))
          (dsBinOp (· - ·) mx mn)) mn) := by
    unfold Processor.rescale
    rw [h1, hscale]
    rfl
  refine ⟨_, hresc, ?_, ?_, ?_⟩
  · rfl
  · -- variable names are preserved through the whole chain
    have hmn : ∀ v ∈ varNames x, (lookupVar mn v).isSome = true :=
      fun v hv => (lookupVar_isSome_iff mn v).mpr (hmem v hv).1
    have hA : varNames (dsBinOp (· - ·) x mn) = varNames x :=
      varNames_dsBinOp_all _ x mn hmn
    have hDmem : ∀ v ∈ varNames x, (lookupVar (dsBinOp (· - ·) mx mn) v).isSome = true := by
      intro v hv
      rw [lookupVar_isSome_iff, mem_varNames_dsBinOp]
      exact ⟨(hmem v hv).2, (hmem v hv).1⟩
    have hQ : varNames (dsBinOp (· / ·) (dsBinOp (· - ·) x mn) (dsBinOp (· - ·) mx mn)) =
        varNames x := by
      rw [varNames_dsBinOp_all _ _ _ (fun v hv => hDmem v (hA ▸ hv))]
      exact hA
    have hM : varNames (dsBinOp (· * ·)
        (dsBinOp (· / ·) (dsBinOp (· - ·) x mn) (dsBinOp (· - ·) mx mn))
        (dsBinOp (· - ·) mx mn)) = varNames x := by
      rw [varNames_dsBinOp_all _ _ _ (fun v hv => hDmem v (hQ ▸ hv))]
      exact hQ
    rw [varNames_dsBinOp_all _ _ _ (fun v hv => hmn v (hM ▸ hv))]
    exact hM
  · intro v hv ix hix
    -- membership transported to the original dataset
    have hmn : ∀ w ∈ varNames x, (lookupVar mn w).isSome = true :=
      fun w hw => (lookupVar_isSome_iff mn w).mpr (hmem w hw).1
    have hA : varNames (dsBinOp (· - ·) x mn) = varNames x :=
      varNames_dsBinOp_all _ x mn hmn
    have hDmem : ∀ w ∈ varNames x, (lookupVar (dsBinOp (· - ·) mx mn) w).isSome = true := by
      intro w hw
      rw [lookupVar_isSome_iff, mem_varNames_dsBinOp]
      exact ⟨(hmem w hw).2, (hmem w hw).1⟩
    have hQ : varNames (dsBinOp (· / ·) (dsBinOp (· - ·) x mn) (dsBinOp (· - ·) mx mn)) =
        varNames x := by
      rw [varNames_dsBinOp_all _ _ _ (fun w hw => hDmem w (hA ▸ hw))]
      exact hA
    have hM : varNames (dsBinOp (· * ·)
        (dsBinOp (· / ·) (dsBinOp (· - ·) x mn) (dsBinOp (· - ·) mx mn))
        (dsBinOp (· - ·) mx mn)) = varNames x := by
      rw [varNames_dsBinOp_all _ _ _ (fun w hw => hDmem w (hQ ▸ hw))]
      exact hQ
    have hvx : v ∈ varNames x := by
      have hR : varNames (dsBinOp (· + ·)
          (dsBinOp (· * ·)
            (dsBinOp (· / ·) (dsBinOp (· - ·) x mn) (dsBinOp (· - ·) mx mn))
            (dsBinOp (· - ·) mx mn)) mn) = varNames x := by
        rw [varNames_dsBinOp_all _ _ _ (fun w hw => hmn w (hM ▸ hw))]
        exact hM
      exact hR ▸ hv
    obtain ⟨f, hf⟩ := Option.isSome_iff_exists.mp ((lookupVar_isSome_iff x v).mpr hvx)
    obtain ⟨g, hg⟩ :=
      Option.isSome_iff_exists.mp ((lookupVar_isSome_iff mn v).mpr (hmem v hvx).1)
    obtain ⟨ff, hff⟩ :=
      Option.isSome_iff_exists.mp ((lookupVar_isSome_iff mx v).mpr (hmem v hvx).2)
    -- the projected parameter index, and collapse of the inner projections
    have hplen : (projIdx x.dims mn.dims ix).length = mn.dims.length :=
      projIdx_length x.dims mn.dims ix
    have hproj : projIdx mn.dims mn.dims (projIdx x.dims mn.dims ix) =
        projIdx x.dims mn.dims ix := projIdx_self mn.dims _ h3 hplen
    -- lookups through the chain
    have hA1 : lookupVar (dsBinOp (· - ·) x mn) v =
        some (fun j => olift2 (· - ·) (f j) (g (projIdx x.dims mn.dims j))) := by
      rw [lookupVar_dsBinOp, hf, hg]
      rfl
    have hD1 : lookupVar (dsBinOp (· - ·) mx mn) v =
        some (fun j => olift2 (· - ·) (ff j) (g (projIdx mx.dims mn.dims j))) := by
      rw [lookupVar_dsBinOp, hff, hg]
      rfl
    have hQ1 : lookupVar (dsBinOp (· / ·) (dsBinOp (· - ·) x mn)
        (dsBinOp (· - ·) mx mn)) v =
        some (fun j => olift2 (· / ·)
          (olift2 (· - ·) (f j) (g (projIdx x.dims mn.dims j)))
          (olift2 (· - ·) (ff (projIdx x.dims mx.dims j))
            (g (projIdx mx.dims mn.dims (projIdx x.dims mx.dims j))))) := by
      rw [lookupVar_dsBinOp, hA1, hD1]
      rfl
    have hM1 : lookupVar (dsBinOp (· * ·)
        (dsBinOp (· / ·) (dsBinOp (· - ·) x mn) (dsBinOp (· - ·) mx mn))
        (dsBinOp (· - ·) mx mn)) v =
        some (fun j => olift2 (· * ·)
          (olift2 (· / ·)
            (olift2 (· - ·) (f j) (g (projIdx x.dims mn.dims j)))
            (olift2 (· - ·) (ff (projIdx x.dims mx.dims j))
              (g (projIdx mx.dims mn.dims (projIdx x.dims mx.dims j)))))
          (olift2 (· - ·) (ff (projIdx x.dims mx.dims j))
            (g (projIdx mx.dims mn.dims (projIdx x.dims mx.dims j))))) := by
      rw [lookupVar_dsBinOp, hQ1, hD1]
      rfl
    have hR1 : lookupVar (dsBinOp (· + ·)
        (dsBinOp (· * ·)
          (dsBinOp (· / ·) (dsBinOp (· - ·) x mn) (dsBinOp (· - ·) mx mn))
          (dsBinOp (· - ·) mx mn)) mn) v =
        some (fun j => olift2 (· + ·)
          (olift2 (· * ·)
            (olift2 (· / ·)
              (olift2 (· - ·) (f j) (g (projIdx x.dims mn.dims j)))
              (olift2 (· - ·) (ff (projIdx x.dims mx.dims j))
                (g (projIdx mx.dims mn.dims (projIdx x.dims mx.dims j)))))
            (olift2 (· - ·) (ff (projIdx x.dims mx.dims j))
              (g (projIdx mx.dims mn.dims (projIdx x.dims mx.dims j)))))
          (g (projIdx x.dims mn.dims j))) := by
      rw [lookupVar_dsBinOp, hM1, hg]
      rfl
    -- numeric parameter cells
    obtain ⟨hgn, hffn, hne⟩ := hnd v hvx ix hix
    rw [show cellVal mn v (projIdx x.dims mn.dims ix) = g (projIdx x.dims mn.dims ix) from by
      unfold cellVal; rw [hg]] at hgn hne
    rw [show cellVal mx v (projIdx x.dims mn.dims ix) = ff (projIdx x.dims mn.dims ix) from by
      unfold cellVal; rw [hff]] at hffn hne
    obtain ⟨m0, hm0⟩ := Option.ne_none_iff_exists'.mp hgn
    obtain ⟨bigM, hbigM⟩ := Option.ne_none_iff_exists'.mp hffn
    have hMne : bigM ≠ m0 := by
      intro hcontra
      rw [hm0, hbigM, hcontra] at hne
      exact hne rfl
    -- evaluate both sides at the cell
    show cellVal _ v ix = cellVal x v ix
    unfold cellVal
    rw [hR1, hf]
    dsimp only
    rw [show projIdx x.dims mx.dims ix = projIdx x.dims mn.dims ix from by rw [h2]]
    rw [show projIdx mx.dims mn.dims (projIdx x.dims mn.dims ix) =
        projIdx x.dims mn.dims ix from by rw [h2, hproj]]
    rw [hm0, hbigM]
    cases hfix : f ix with
    | none => simp [olift2_none_left, olift2]
    | some q =>
      show olift2 (· + ·) (olift2 (· * ·) (olift2 (· / ·)
        (olift2 (· - ·) (some q) (some m0)) (olift2 (· - ·) (some bigM) (some m0)))
        (olift2 (· - ·) (some bigM) (some m0))) (some m0) = some q
      show some ((q - m0) / (bigM - m0) * (bigM - m0) + m0) = some q
      congr 1
      have hz : bigM - m0 ≠ 0 := sub_ne_zero.mpr hMne
      field_simp

/-- Witness for C9, inverting the scaled sample dataset with the sample
fitted parameters. -/
theorem c9_rescale_inverts_scale_witness :
    ∃ r, Processor.rescale sampleState (Processor.scale sampleState sampleDS) = .ok r ∧
      dsEquiv r sampleDS :=
  c9_rescale_inverts_scale sampleState sampleMin sampleMax sampleDS rfl rfl
    (by decide) (by decide) (by decide)

/-- **C5.** Model construction (via the factory) performs no parameter
validation: whether `factory` succeeds depends only on the model type, never
on the parameters.  Validation happens when `build` runs: for every model
type and well-typed parameter dict (`hiddenLayers` values are ints,
per-layer values are lists — the types the claim's wording presupposes),
`build` raises `ConfigError` exactly when a required parameter key for that
type is missing or a per-layer list (`units`, `dropout`, `filters`) has a
length different from the configured `hiddenLayers` value. -/
theorem c5_lazy_per_type_validation :
    (∀ cfg cfg' : ModelConfig, cfg.model_type = cfg'.model_type →
      ((factory cfg).isOk = true ↔ (factory cfg').isOk = true)) ∧
    (∀ (cfg : ModelConfig) (m : Model) (sh : ShapeArg) (os : Option Int),
      factory cfg = .ok m → wellTypedParams cfg.params = true →
      (buildModel m sh os = .error .configError ↔
        requiredMissingOrLenMismatch m.kind cfg.params = true)) := by
  constructor
  · intro cfg cfg' hmt
    rw [factory_isOk_iff, factory_isOk_iff, hmt]
  · intro cfg m sh os hfac hw
    unfold factory at hfac
    split_ifs at hfac with h1 h2 h3 h4 h5
    · injection hfac with hm
      subst hm
      unfold buildModel requiredMissingOrLenMismatch
      dsimp only
      cases hv : validateLstmParams cfg.params with
      | error e =>
        constructor
        · intro h
          injection h with h2
          subst h2
          exact (validateLstm_configError_iff cfg.params hw).mp hv
        · intro hb
          have hc := (validateLstm_configError_iff cfg.params hw).mpr hb
          rw [hv] at hc
          injection hc with hc
          rw [hc]
      | ok t =>
        constructor
        · intro h
          exact absurd h (lstmBuildModel_ne_config sh t os)
        · intro hb
          have hc := (validateLstm_configError_iff cfg.params hw).mpr hb
          rw [hv] at hc
          exact absurd hc (by simp)
    · injection hfac with hm
      subst hm
      unfold buildModel requiredMissingOrLenMismatch
      dsimp only
      cases hv : validateCnnLstmParams cfg.params with
      | error e =>
        constructor
        · intro h
          injection h with h2
          subst h2
          exact (validateCnnLstm_configError_iff cfg.params hw).mp hv
        · intro hb
          have hc := (validateCnnLstm_configError_iff cfg.params hw).mpr hb
          rw [hv] at hc
          injection hc with hc
          rw [hc]
      | ok t =>
        constructor
        · intro h
          exact absurd h (cnnLstmBuildModel_ne_config sh t os)
        · intro hb
          have hc := (validateCnnLstm_configError_iff cfg.params hw).mpr hb
          rw [hv] at hc
          exact absurd hc (by simp)
    · injection hfac with hm
      subst hm
      unfold buildModel requiredMissingOrLenMismatch
      dsimp only
      rw [validateMulti_eq]
      cases hv : validateCnnLstmParams cfg.params with
      | error e =>
        constructor
        · intro h
          injection h with h2
          subst h2
          exact (validateCnnLstm_configError_iff cfg.params hw).mp hv
        · intro hb
          have hc := (validateCnnLstm_configError_iff cfg.params hw).mpr hb
          rw [hv] at hc
          injection hc with hc
          rw [hc]
      | ok t =>
        constructor
        · intro h
          exact absurd h (multiCnnLstmBuildModel_ne_config sh t os)
        · intro hb
          have hc := (validateCnnLstm_configError_iff cfg.params hw).mpr hb
          rw [hv] at hc
          exact absurd hc (by simp)
    · injection hfac with hm
      subst hm
      unfold buildModel requiredMissingOrLenMismatch
      dsimp only
      cases hv : validateConvLstmParams cfg.params with
      | error e =>
        constructor
        · intro h
          injection h with h2
          subst h2
          exact (validateConvLstm_configError_iff cfg.params hw).mp hv
        · intro hb
          have hc := (validateConvLstm_configError_iff cfg.params hw).mpr hb
          rw [hv] at hc
          injection hc with hc
          rw [hc]
      | ok t =>
        constructor
        · intro h
          exact absurd h (convLstmBuildModel_ne_config sh t os)
        · intro hb
          have hc := (validateConvLstm_configError_iff cfg.params hw).mpr hb
          rw [hv] at hc
          exact absurd hc (by simp)
    · injection hfac with hm
      subst hm
      unfold buildModel requiredMissingOrLenMismatch
      dsimp only
      rw [validateConv3d_eq]
      cases hv : validateConvLstmParams cfg.params with
      | error e =>
        constructor
        · intro h
          injection h with h2
          subst h2
          exact (validateConvLstm_configError_iff cfg.params hw).mp hv
        · intro hb
          have hc := (validateConvLstm_configError_iff cfg.params hw).mpr hb
          rw [hv] at hc
          injection hc with hc
          rw [hc]
      | ok t =>
        constructor
        · intro h
          exact absurd h (conv3dBuildModel_ne_config sh t os)
        · intro hb
          have hc := (validateConvLstm_configError_iff cfg.params hw).mpr hb
          rw [hv] at hc
          exact absurd hc (by simp)

/-- Witness for C5, on the sample lstm config. -/
theorem c5_lazy_per_type_validation_witness :
    ((factory sampleCfgLstm).isOk = true ↔ (factory sampleCfgLstm).isOk = true) ∧
    (buildModel ⟨ModelKind.lstm, sampleCfgLstm⟩ (ShapeArg.single [10, 3]) none =
        .error .configError ↔
      requiredMissingOrLenMismatch ModelKind.lstm sampleCfgLstm.params = true) :=
  ⟨c5_lazy_per_type_validation.1 sampleCfgLstm sampleCfgLstm rfl,
   c5_lazy_per_type_validation.2 sampleCfgLstm ⟨ModelKind.lstm, sampleCfgLstm⟩
     (ShapeArg.single [10, 3]) none (by rfl) (by decide)⟩

/-- **C10.** LSTM parameter validation accepts `hiddenLayers = 0` with empty
`units`/`dropout` lists (it checks only list lengths, with no lower bound on
`hiddenLayers`, unlike the CNN validators which reject negative values), yet
`_build_model` then indexes `units[hiddenLayers - 1]` — out of bounds for
the empty lists — so for validated parameters the build succeeds exactly
when `hiddenLayers ≥ 1`. -/
theorem c10_lstm_zero_hidden_layers :
    validateLstmParams lstmParamsZero =
      .ok (.leaf (.jint 0), .jlist [], .jlist []) ∧
    lstmBuildModel (ShapeArg.single [10, 3]) (.leaf (.jint 0), .jlist [], .jlist []) none =
      .error .indexError ∧
    (∀ (n : Int) (us dr : List JLeaf) (p : TopParams) (s : List Nat) (os : Option Int),
      validateLstmParams p = .ok (.leaf (.jint n), .jlist us, .jlist dr) →
      ((∃ net, lstmBuildModel (ShapeArg.single s)
          (.leaf (.jint n), .jlist us, .jlist dr) os = .ok net) ↔ 1 ≤ n)) ∧
    cnnPartValidate [("hiddenLayers", .leaf (.jint (-1))), ("filters", .jlist [])] =
      .error .configError := by
  refine ⟨rfl, rfl, ?_, rfl⟩
  intro n us dr p s os hval
  obtain ⟨hus, hdr⟩ := validateLstm_ok_lengths p n us dr hval
  constructor
  · rintro ⟨net, hnet⟩
    by_contra hn
    have hn0 : n = 0 := by omega
    have husnil : us = [] := List.length_eq_zero.mp (by omega)
    have hdrnil : dr = [] := List.length_eq_zero.mp (by omega)
    subst hn0
    subst husnil
    subst hdrnil
    have hred : lstmBuildModel (ShapeArg.single s)
        (JVal.leaf (JLeaf.jint 0), JVal.jlist [], JVal.jlist []) os =
        .error .indexError := rfl
    rw [hred] at hnet
    exact absurd hnet (by simp)
  · intro hn
    obtain ⟨ls, hls⟩ := stackedLstmLayers_ok us dr (n - 1).toNat (by omega) (by omega)
    obtain ⟨u, hu⟩ := pyIndex_int_ok us (n - 1) (by omega) (by omega)
    obtain ⟨d, hd⟩ := pyIndex_int_ok dr (n - 1) (by omega) (by omega)
    refine ⟨[Layer.inputL s] ++ ls ++ [Layer.lstmL u false (some d), outLayer os], ?_⟩
    unfold lstmBuildModel
    dsimp only [asPyInt]
    rw [hls, hu, hd]

/-- Witness for C10: the closed conjuncts plus the biconditional applied to
the valid one-layer sample parameters. -/
theorem c10_lstm_zero_hidden_layers_witness :
    (∃ net, lstmBuildModel (ShapeArg.single [10, 3])
      (.leaf (.jint 1), .jlist [.jint 32], .jlist [.jfloat 0]) none = .ok net) ↔
      (1 : Int) ≤ 1 :=
  c10_lstm_zero_hidden_layers.2.2.1 1 [.jint 32] [.jfloat 0] sampleLstmParams
    [10, 3] none (by rfl)

/-- **C7.** Whenever `merge_observations_and_predictions` succeeds, the
result's variables are exactly the prediction's variables, each appearing
twice with `_pred` and `_obs` appended (so only prediction variables are
used to subset the observations), and the merged timeframe is the
prediction's time index when `use_pred_timeframe` holds and the
observation's (monotone) time index otherwise. -/
theorem c7_merge_observations_and_predictions (obs pred : TSDataset) (b : Bool)
    (r : TSDataset) (h : mergeObservationsAndPredictions obs pred b = .ok r) :
    tsKeys r = (tsKeys pred).map (fun v => v ++ "_pred") ++
      (tsKeys pred).map (fun v => v ++ "_obs") ∧
    (b = true → r.times = pred.times) ∧
    (b = false → List.Sorted (· ≤ ·) obs.times → r.times = obs.times) := by
  unfold mergeObservationsAndPredictions at h
  cases b with
  | true =>
    cases hft : firstTime pred.times with
    | error e =>
      rw [hft] at h
      simp at h
    | ok s =>
      rw [hft] at h
      cases hlt : lastTime pred.times with
      | error e =>
        rw [hlt] at h
        simp at h
      | ok e2 =>
        rw [hlt] at h
        dsimp only at h
        cases hsel : selVarsTS obs (tsKeys pred) with
        | error e =>
          rw [hsel] at h
          simp at h
        | ok dsObsSel =>
          rw [hsel] at h
          injection h with h
          subst h
          dsimp only
          rw [if_pos rfl]
          refine ⟨?_, fun _ => rfl, fun hb => absurd hb (by simp)⟩
          rw [tsKeys_mergeTS, tsKeys_renameTS, tsKeys_renameTS, tsKeys_selTimeSliceTS,
            (selVarsTS_ok obs (tsKeys pred) dsObsSel hsel).1]
  | false =>
    cases hft : firstTime obs.times with
    | error e =>
      rw [hft] at h
      simp at h
    | ok s =>
      rw [hft] at h
      cases hlt : lastTime obs.times with
      | error e =>
        rw [hlt] at h
        simp at h
      | ok e2 =>
        rw [hlt] at h
        dsimp only at h
        cases hsel : selVarsTS obs (tsKeys pred) with
        | error e =>
          rw [hsel] at h
          simp at h
        | ok dsObsSel =>
          rw [hsel] at h
          injection h with h
          subst h
          dsimp only
          rw [if_neg (by simp)]
          refine ⟨?_, fun hb => absurd hb (by simp), fun _ hsorted => ?_⟩
          · rw [tsKeys_mergeTS, tsKeys_renameTS, tsKeys_renameTS, tsKeys_selTimeSliceTS,
              (selVarsTS_ok obs (tsKeys pred) dsObsSel hsel).1]
          · show (selTimeSliceTS dsObsSel s e2).times = obs.times
            show dsObsSel.times.filter _ = obs.times
            rw [(selVarsTS_ok obs (tsKeys pred) dsObsSel hsel).2]
            exact sorted_filter_between obs.times hsorted s e2 hft hlt

/-- Witness for C7, merging the sample observation and prediction tables on
the prediction timeframe. -/
theorem c7_merge_observations_and_predictions_witness :
    tsKeys sampleMerged = (tsKeys samplePred).map (fun v => v ++ "_pred") ++
      (tsKeys samplePred).map (fun v => v ++ "_obs") ∧
    (true = true → sampleMerged.times = samplePred.times) ∧
    (true = false → List.Sorted (· ≤ ·) sampleObs.times →
      sampleMerged.times = sampleObs.times) :=
  c7_merge_observations_and_predictions sampleObs samplePred true sampleMerged (by rfl)

end StDeepHydro
